import Mathlib

/-!
Verification development for the GreenCart order and payment consistency engine.

The Django models, serializers, views and webhook handlers of the orders,
payments, cart and products apps are shallowly embedded as pure Lean
functions over an explicit database state.  Conventions:

* Decimal money amounts (2 decimal places, exact decimal arithmetic) are
  modelled as integers counting cents.
* Database rows are records in lists; the unique-column lookups
  (objects.get, objects.filter(...).first()) become List.find? and the
  row saves become list map-updates keyed on the looked-up column.
* CharField values that participate in ordering (order_number) are
  modelled as lists of characters; SQL and Python ordering on these
  ASCII strings is codepoint-lexicographic.  Other identifier columns
  are plain String or Nat values.
* Timestamps (timezone.now()) are passed in as abstract Nat parameters.
-/

namespace GreenCart

/-! ## Status vocabularies (model-level choices lists) -/

/-- Order.STATUS_CHOICES in orders/models.py. -/
inductive OrderStatus
  | PENDING
  | CONFIRMED
  | CANCELLED
  | SHIPPED
  | DELIVERED
deriving DecidableEq, Repr

/-- Payment.STATUS_CHOICES in payments/models.py. -/
inductive PaymentStatus
  | PENDING
  | PROCESSING
  | SUCCEEDED
  | FAILED
  | CANCELLED
  | REFUNDED
  | PARTIALLY_REFUNDED
deriving DecidableEq, Repr

/-- Refund.STATUS_CHOICES in payments/models.py. -/
inductive RefundStatus
  | PENDING
  | SUCCEEDED
  | FAILED
  | CANCELLED
deriving DecidableEq, Repr

/-- WebhookEvent.STATUS_CHOICES in payments/models.py. -/
inductive WebhookStatus
  | RECEIVED
  | PROCESSED
  | FAILED
  | IGNORED
deriving DecidableEq, Repr

/-! ## Character-list utilities for order numbers

Order.save in orders/models.py generates the order number from the
lexicographically largest existing order number of the current year
(order_by descending on a CharField), so the string ordering matters. -/

/-- Strict lexicographic order on character lists: the ordering used by
order_by on a CharField restricted to the ASCII order numbers. -/
def chLt : List Char → List Char → Bool
  | [], [] => false
  | [], _ :: _ => true
  | _ :: _, [] => false
  | a :: as, b :: bs =>
    if Nat.blt a.toNat b.toNat then true
    else if Nat.blt b.toNat a.toNat then false
    else chLt as bs

/-- Python str.startswith on character lists: listStartsWith pfx s. -/
def listStartsWith : List Char → List Char → Bool
  | [], _ => true
  | _ :: _, [] => false
  | a :: as, b :: bs => a == b && listStartsWith as bs

/-- Python int() on a string of decimal digits. -/
def charsToNat (s : List Char) : Nat :=
  s.foldl (fun acc c => 10 * acc + (c.toNat - 48)) 0

/-- Python format f-string 03d: decimal digits zero-padded on the left to
width 3 (numbers of four or more digits are printed in full). -/
def pad3 (n : Nat) : List Char :=
  let ds := Nat.toDigits 10 n
  List.replicate (3 - ds.length) '0' ++ ds

/-- Python slice [-3:] on a string: the last three characters. -/
def takeLast3 (s : List Char) : List Char := s.drop (s.length - 3)

/-- objects.filter(...).order_by(descending).first(): the maximum of the
list under the string order, if any. -/
def maxChars : List (List Char) → Option (List Char)
  | [] => none
  | a :: rest => some (rest.foldl (fun m x => if chLt m x then x else m) a)

/-- The year prefix GC followed by the year, from Order.save. -/
def gcPfx (year : Nat) : List Char := 'G' :: 'C' :: Nat.toDigits 10 year

/-- Order.save order-number generation (orders/models.py lines 142-159):
filter existing numbers starting with the year prefix, take the largest
by string order, parse its last three characters as an integer and
increment; with no previous order the sequence starts at 1. -/
def nextOrderNumber (year : Nat) (existing : List (List Char)) : List Char :=
  let pfx := gcPfx year
  let cands := existing.filter (fun s => listStartsWith pfx s)
  match maxChars cands with
  | none => pfx ++ pad3 1
  | some last => pfx ++ pad3 (charsToNat (takeLast3 last) + 1)

/-- The list of order numbers present after n successive order creations
in one calendar year, newest first (each creation runs Order.save on the
numbers existing so far). -/
def createOrders (year : Nat) : Nat → List (List Char)
  | 0 => []
  | n + 1 =>
    let prev := createOrders year n
    nextOrderNumber year prev :: prev

/-! ## Data model records -/

/-- Product stock fields used by the inventory primitives and checkout
(products/models.py); catalog-only columns are not modelled. -/
structure Product where
  producer_id : Nat
  price : Int
  quantity_available : Int
  is_active : Bool
deriving DecidableEq, Repr

/-- CartItem (cart/models.py): product, quantity and the price captured
at add time. -/
structure CartLine where
  product_id : Nat
  quantity : Int
  price_at_time : Int
deriving DecidableEq, Repr

/-- Order (orders/models.py); delivery-address snapshot columns and notes
are not modelled because no verified property mentions them. -/
structure Order where
  id : Nat
  order_number : List Char
  consumer : Nat
  status : OrderStatus
  total_amount : Int
  confirmed_at : Option Nat
  shipped_at : Option Nat
  delivered_at : Option Nat
deriving DecidableEq, Repr

/-- OrderItem (orders/models.py): producer denormalized from the product,
unit price copied from the cart line, total price computed on save. -/
structure OrderItem where
  order_id : Nat
  product_id : Nat
  producer_id : Nat
  quantity : Int
  unit_price : Int
  total_price : Int
deriving DecidableEq, Repr

/-- OrderStatusHistory (orders/models.py): old_status is a blank-able
CharField; the blank value written by checkout is modelled as none. -/
structure HistoryRow where
  order_id : Nat
  old_status : Option OrderStatus
  new_status : OrderStatus
  changed_by : Nat
  reason : String
  changed_at : Nat
deriving DecidableEq, Repr

/-- Payment (payments/models.py); stripe_client_secret, currency, fee and
metadata columns are not modelled. -/
structure Payment where
  id : Nat
  order_id : Nat
  user_id : Nat
  stripe_payment_intent_id : String
  amount : Int
  status : PaymentStatus
  processed_at : Option Nat
  failure_reason : String
deriving DecidableEq, Repr

/-- Refund (payments/models.py). -/
structure RefundRec where
  payment_id : Nat
  stripe_refund_id : String
  amount : Int
  status : RefundStatus
  reason : String
  description : String
  processed_at : Option Nat
  failure_reason : String
deriving DecidableEq, Repr

/-- WebhookEvent (payments/models.py): stripe_event_id carries a unique
constraint, the idempotency anchor. -/
structure WebhookEventRec where
  stripe_event_id : String
  event_type : String
  status : WebhookStatus
  error_message : String
  processed_at : Option Nat
deriving DecidableEq, Repr

/-- The persistent store, plus two instrumentation fields that record
externally observable side effects: confirm_calls counts invocations of
Order.confirm, gateway_refund_calls logs the StripeClient.create_refund
calls (payment intent id and decimal amount in cents). -/
structure DB where
  products : List (Nat × Product)
  cart_items : List CartLine
  orders : List Order
  order_items : List OrderItem
  status_history : List HistoryRow
  payments : List Payment
  refunds : List RefundRec
  webhook_events : List WebhookEventRec
  confirm_calls : Nat
  gateway_refund_calls : List (String × Int)
deriving DecidableEq, Repr

/-! ## Table lookup and row-save helpers -/

/-- Save a row back: replace every row matching the key (the key column
is unique, so at most one row matches in reachable states). -/
def updateBy (key : α → Bool) (f : α → α) (l : List α) : List α :=
  l.map fun x => if key x then f x else x

def findProduct (db : DB) (pid : Nat) : Option Product :=
  (db.products.find? (fun x => x.1 == pid)).map (fun x => x.2)

def setProduct (db : DB) (pid : Nat) (p : Product) : DB :=
  { db with products := updateBy (fun x => x.1 == pid) (fun _ => (pid, p)) db.products }

def findOrder (db : DB) (oid : Nat) : Option Order :=
  db.orders.find? (fun o => o.id == oid)

def setOrder (db : DB) (oid : Nat) (o : Order) : DB :=
  { db with orders := updateBy (fun x => x.id == oid) (fun _ => o) db.orders }

def findPaymentByIntent (db : DB) (intent : String) : Option Payment :=
  db.payments.find? (fun p => p.stripe_payment_intent_id == intent)

def setPaymentByIntent (db : DB) (intent : String) (p : Payment) : DB :=
  { db with payments :=
      updateBy (fun x => x.stripe_payment_intent_id == intent) (fun _ => p) db.payments }

def findPaymentById (db : DB) (pid : Nat) : Option Payment :=
  db.payments.find? (fun p => p.id == pid)

def findRefundByStripeId (db : DB) (rid : String) : Option RefundRec :=
  db.refunds.find? (fun r => r.stripe_refund_id == rid)

def setRefundByStripeId (db : DB) (rid : String) (r : RefundRec) : DB :=
  { db with refunds := updateBy (fun x => x.stripe_refund_id == rid) (fun _ => r) db.refunds }

/-- order.items.all(): the items of one order. -/
def orderItemsOf (db : DB) (oid : Nat) : List OrderItem :=
  db.order_items.filter (fun it => it.order_id == oid)

/-- payment.refunds.filter(status=SUCCEEDED) summed amount, from
RefundCreateSerializer.validate. -/
def succeededRefundSum (db : DB) (pid : Nat) : Int :=
  ((db.refunds.filter (fun r => r.payment_id == pid && r.status == RefundStatus.SUCCEEDED)).map
    (fun r => r.amount)).sum

/-! ## Inventory ledger primitives (products/models.py lines 212-223) -/

/-- Product.reduce_stock: decrement only when enough stock is available,
reporting success; otherwise leave the row untouched and report failure. -/
def Product.reduce_stock (p : Product) (quantity : Int) : Product × Bool :=
  if p.quantity_available ≥ quantity then
    ({ p with quantity_available := p.quantity_available - quantity }, true)
  else
    (p, false)

/-- Product.increase_stock: always increments. -/
def Product.increase_stock (p : Product) (quantity : Int) : Product :=
  { p with quantity_available := p.quantity_available + quantity }

/-! ## Order state machine methods (orders/models.py) -/

/-- Order.can_be_cancelled property. -/
def Order.can_be_cancelled (o : Order) : Bool :=
  o.status == OrderStatus.PENDING || o.status == OrderStatus.CONFIRMED

/-- Order.confirm (orders/models.py lines 197-204): from PENDING set
CONFIRMED and stamp confirmed_at; otherwise change nothing and report
false.  No OrderStatusHistory row is written by this method. -/
def Order.confirm (o : Order) (now : Nat) : Order × Bool :=
  if o.status == OrderStatus.PENDING then
    ({ o with status := OrderStatus.CONFIRMED, confirmed_at := some now }, true)
  else
    (o, false)

/-- The stock-restoring loop of Order.cancel: for each item of the order,
item.product.increase_stock(item.quantity). -/
def releaseItems (db : DB) : List OrderItem → DB
  | [] => db
  | it :: rest =>
    let db1 :=
      match findProduct db it.product_id with
      | some p => setProduct db it.product_id (p.increase_stock it.quantity)
      | none => db
    releaseItems db1 rest

/-- Order.cancel (orders/models.py lines 185-195): when cancellable,
restore the stock of every item, then flip the status to CANCELLED and
save; otherwise report false without mutation.  No history row is
written by this method either. -/
def Order.cancel (db : DB) (o : Order) : DB × Order × Bool :=
  if o.can_be_cancelled then
    let db1 := releaseItems db (orderItemsOf db o.id)
    let o1 := { o with status := OrderStatus.CANCELLED }
    (setOrder db1 o.id o1, o1, true)
  else
    (db, o, false)

/-! ## Checkout (orders/serializers.py CreateOrderSerializer) -/

/-- CartItem.is_available (cart/models.py): the product is still active
and has at least the requested quantity.  The product row always exists
through the foreign key; a missing product is treated as unavailable. -/
def lineIsAvailable (db : DB) (l : CartLine) : Bool :=
  match findProduct db l.product_id with
  | some p => p.is_active && p.quantity_available ≥ l.quantity
  | none => false

/-- Cart.total_amount (cart/models.py lines 42-48): sum of the line
totals quantity times price_at_time. -/
def cartTotalAmount (items : List CartLine) : Int :=
  items.foldl (fun acc l => acc + l.quantity * l.price_at_time) 0

/-- CreateOrderSerializer.validate: the cart must be non-empty and every
line still available; returns the first error message, if any.  (The
delivery-date validation concerns only the request payload and is not
modelled.) -/
def checkoutValidate (db : DB) : Option String :=
  if db.cart_items.isEmpty then
    some "Cart is empty."
  else
    match db.cart_items.find? (fun l => !lineIsAvailable db l) with
    | some _ => some "Product is no longer available in requested quantity."
    | none => none

/-- The per-line body of CreateOrderSerializer.create: create the
OrderItem (producer copied from the product, total price computed by
OrderItem.save) and then reduce the product stock, ignoring the boolean
result exactly as the source does. -/
def checkoutLoop (db : DB) (oid : Nat) : List CartLine → DB
  | [] => db
  | l :: rest =>
    let db1 :=
      match findProduct db l.product_id with
      | some p =>
        let it : OrderItem :=
          { order_id := oid, product_id := l.product_id, producer_id := p.producer_id,
            quantity := l.quantity, unit_price := l.price_at_time,
            total_price := l.quantity * l.price_at_time }
        let db' := { db with order_items := db.order_items ++ [it] }
        setProduct db' l.product_id (p.reduce_stock l.quantity).1
      | none => db
    checkoutLoop db1 oid rest

inductive CheckoutRes
  | created (oid : Nat)
  | error (msg : String)
deriving DecidableEq, Repr

/-- create_order_from_cart (orders/views.py) running
CreateOrderSerializer (orders/serializers.py lines 129-175) as one
atomic transaction: validate, then create the PENDING order with the
cart total and a fresh order number, create one item per cart line while
reducing stock, clear the cart and append the initial history row.  On a
validation error nothing is mutated. -/
def create_order_from_cart (db : DB) (year now oid uid : Nat) : CheckoutRes × DB :=
  match checkoutValidate db with
  | some msg => (CheckoutRes.error msg, db)
  | none =>
    let onum := nextOrderNumber year (db.orders.map (fun o => o.order_number))
    let order : Order :=
      { id := oid, order_number := onum, consumer := uid, status := OrderStatus.PENDING,
        total_amount := cartTotalAmount db.cart_items,
        confirmed_at := none, shipped_at := none, delivered_at := none }
    let db1 := { db with orders := db.orders ++ [order] }
    let db2 := checkoutLoop db1 oid db.cart_items
    let db3 := { db2 with cart_items := [] }
    let row : HistoryRow :=
      { order_id := oid, old_status := none, new_status := OrderStatus.PENDING,
        changed_by := uid, reason := "Order created", changed_at := now }
    (CheckoutRes.created oid, { db3 with status_history := db3.status_history ++ [row] })

/-! ## Manual status updates and cancellation (orders/serializers.py) -/

/-- UpdateOrderStatusSerializer.validate transition table
(orders/serializers.py lines 184-204). -/
def valid_transitions : OrderStatus → List OrderStatus
  | OrderStatus.PENDING => [OrderStatus.CONFIRMED, OrderStatus.CANCELLED]
  | OrderStatus.CONFIRMED => [OrderStatus.SHIPPED, OrderStatus.CANCELLED]
  | OrderStatus.SHIPPED => [OrderStatus.DELIVERED]
  | OrderStatus.CANCELLED => []
  | OrderStatus.DELIVERED => []

inductive ApiRes
  | ok
  | validationError (msg : String)
  | notFound
deriving DecidableEq, Repr

/-- The update_status action of OrderViewSet running
UpdateOrderStatusSerializer: reject a target outside the transition
table with a validation error (the InvalidTransition of the spec
taxonomy) and change nothing; otherwise set the status, stamp the
matching timestamp and append one history row recording the old and new
status, the actor and the reason. -/
def update_order_status (db : DB) (oid : Nat) (new_status : OrderStatus)
    (actor : Nat) (reason : String) (now : Nat) : ApiRes × DB :=
  match findOrder db oid with
  | none => (ApiRes.notFound, db)
  | some o =>
    if new_status ∈ valid_transitions o.status then
      let o1 : Order :=
        { o with
          status := new_status,
          confirmed_at := if new_status == OrderStatus.CONFIRMED then some now else o.confirmed_at,
          shipped_at := if new_status == OrderStatus.SHIPPED then some now else o.shipped_at,
          delivered_at := if new_status == OrderStatus.DELIVERED then some now else o.delivered_at }
      let db1 := setOrder db oid o1
      let row : HistoryRow :=
        { order_id := oid, old_status := some o.status, new_status := new_status,
          changed_by := actor, reason := reason, changed_at := now }
      (ApiRes.ok, { db1 with status_history := db1.status_history ++ [row] })
    else
      (ApiRes.validationError "Cannot change status.", db)

/-- The writable surface of OrderSerializer (orders/serializers.py lines
45-70): its declared fields. -/
def orderSerializerFields : List String :=
  ["id", "order_number", "consumer", "status", "status_display",
   "total_amount", "total_items", "delivery_address", "delivery_city",
   "delivery_postal_code", "delivery_date", "order_date",
   "confirmed_at", "shipped_at", "delivered_at", "notes",
   "consumer_notes", "items", "status_history", "producers_involved",
   "can_be_cancelled", "is_completed", "created_at", "updated_at"]

/-- The read_only_fields list of OrderSerializer: status is absent, so
status is writable. -/
def orderSerializerReadOnlyFields : List String :=
  ["id", "order_number", "consumer", "total_amount", "total_items",
   "order_date", "confirmed_at", "shipped_at", "delivered_at",
   "created_at", "updated_at"]

/-- OrderViewSet is a ModelViewSet registered on a DefaultRouter, so PUT
and PATCH on an order are exposed and fall back to OrderSerializer,
whose writable status field a ModelSerializer update applies directly to
the instance: no transition table is consulted and no history row is
written. -/
def orderSerializerPatchStatus (o : Order) (new_status : OrderStatus) : Order :=
  { o with status := new_status }

/-- The cancel action of OrderViewSet running CancelOrderSerializer
(orders/serializers.py lines 242-274): validate can_be_cancelled, call
Order.cancel (which restores stock), then append a history row whose
old_status is computed from the already-mutated order, hence always
PENDING once the cancel succeeded. -/
def cancel_order (db : DB) (oid : Nat) (actor : Nat) (reason : String) (now : Nat) :
    ApiRes × DB :=
  match findOrder db oid with
  | none => (ApiRes.notFound, db)
  | some o =>
    if !o.can_be_cancelled then
      (ApiRes.validationError "This order cannot be cancelled.", db)
    else
      match Order.cancel db o with
      | (db1, o1, true) =>
        let old : OrderStatus :=
          if o1.status == OrderStatus.CANCELLED then OrderStatus.PENDING else o1.status
        let row : HistoryRow :=
          { order_id := oid, old_status := some old, new_status := OrderStatus.CANCELLED,
            changed_by := actor, reason := reason, changed_at := now }
        (ApiRes.ok, { db1 with status_history := db1.status_history ++ [row] })
      | (db1, _, false) => (ApiRes.ok, db1)

/-! ## Payment model methods (payments/models.py) -/

/-- Payment.mark_as_succeeded. -/
def Payment.mark_as_succeeded (p : Payment) (now : Nat) : Payment :=
  { p with status := PaymentStatus.SUCCEEDED, processed_at := some now }

/-- Payment.mark_as_failed. -/
def Payment.mark_as_failed (p : Payment) (reason : String) (now : Nat) : Payment :=
  { p with status := PaymentStatus.FAILED, failure_reason := reason, processed_at := some now }

/-- Payment.can_be_refunded property: only a SUCCEEDED payment. -/
def Payment.can_be_refunded (p : Payment) : Bool :=
  p.status == PaymentStatus.SUCCEEDED

/-- Refund.mark_as_succeeded. -/
def RefundRec.mark_as_succeeded (r : RefundRec) (now : Nat) : RefundRec :=
  { r with status := RefundStatus.SUCCEEDED, processed_at := some now }

/-- Refund.mark_as_failed. -/
def RefundRec.mark_as_failed (r : RefundRec) (reason : String) (now : Nat) : RefundRec :=
  { r with status := RefundStatus.FAILED, failure_reason := reason, processed_at := some now }

/-! ## Webhook handlers (payments/webhooks.py WebhookHandler)

A Stripe event is its id, its type and the fields of data.object that
the handlers read.  Handler outcomes: hok is return True, hfail is
return False (a missing row), hexc is an uncaught exception. -/

structure StripeEvent where
  id : String
  event_type : String
  object_id : String
  object_status : String
  object_error : String
deriving DecidableEq, Repr

inductive HRes
  | hok
  | hfail
  | hexc
deriving DecidableEq, Repr

/-- handle_payment_succeeded (payments/webhooks.py lines 63-98): look up
the payment by intent id (missing: return False), mark it SUCCEEDED,
save, and call Order.confirm only when the linked order is still
PENDING.  The payment_method and fee enrichment read from the charge
payload touches no field any property mentions and is not modelled.  A
missing order row would raise (hexc); the foreign key makes that
unreachable.  No OrderStatusHistory row is written on this path. -/
def handle_payment_succeeded (db : DB) (intent : String) (now : Nat) : HRes × DB :=
  match findPaymentByIntent db intent with
  | none => (HRes.hfail, db)
  | some payment =>
    let db1 := setPaymentByIntent db intent (payment.mark_as_succeeded now)
    match findOrder db1 payment.order_id with
    | none => (HRes.hexc, db1)
    | some o =>
      if o.status == OrderStatus.PENDING then
        let db2 := setOrder db1 payment.order_id (Order.confirm o now).1
        (HRes.hok, { db2 with confirm_calls := db2.confirm_calls + 1 })
      else
        (HRes.hok, db1)

/-- handle_payment_failed (lines 100-120). -/
def handle_payment_failed (db : DB) (intent : String) (reason : String) (now : Nat) :
    HRes × DB :=
  match findPaymentByIntent db intent with
  | none => (HRes.hfail, db)
  | some payment =>
    (HRes.hok, setPaymentByIntent db intent (payment.mark_as_failed reason now))

/-- handle_payment_canceled (lines 122-138): sets status CANCELLED
unconditionally, whatever the stored status. -/
def handle_payment_canceled (db : DB) (intent : String) : HRes × DB :=
  match findPaymentByIntent db intent with
  | none => (HRes.hfail, db)
  | some payment =>
    (HRes.hok, setPaymentByIntent db intent { payment with status := PaymentStatus.CANCELLED })

/-- handle_payment_processing (lines 140-156): sets status PROCESSING
unconditionally, whatever the stored status. -/
def handle_payment_processing (db : DB) (intent : String) : HRes × DB :=
  match findPaymentByIntent db intent with
  | none => (HRes.hfail, db)
  | some payment =>
    (HRes.hok, setPaymentByIntent db intent { payment with status := PaymentStatus.PROCESSING })

/-- handle_payment_requires_action (lines 158-171): looks the payment up
and only logs. -/
def handle_payment_requires_action (db : DB) (intent : String) : HRes × DB :=
  match findPaymentByIntent db intent with
  | none => (HRes.hfail, db)
  | some _ => (HRes.hok, db)

/-- handle_refund_created (lines 186-208): find the refund by Stripe id
and mirror the Stripe status. -/
def handle_refund_created (db : DB) (ev : StripeEvent) (now : Nat) : HRes × DB :=
  match findRefundByStripeId db ev.object_id with
  | none => (HRes.hfail, db)
  | some refund =>
    if ev.object_status == "succeeded" then
      (HRes.hok, setRefundByStripeId db ev.object_id (refund.mark_as_succeeded now))
    else if ev.object_status == "failed" then
      (HRes.hok, setRefundByStripeId db ev.object_id (refund.mark_as_failed ev.object_error now))
    else
      (HRes.hok, db)

/-- handle_refund_updated (lines 210-230): like handle_refund_created
but skipping a mark the refund already carries. -/
def handle_refund_updated (db : DB) (ev : StripeEvent) (now : Nat) : HRes × DB :=
  match findRefundByStripeId db ev.object_id with
  | none => (HRes.hfail, db)
  | some refund =>
    if ev.object_status == "succeeded" && !(refund.status == RefundStatus.SUCCEEDED) then
      (HRes.hok, setRefundByStripeId db ev.object_id (refund.mark_as_succeeded now))
    else if ev.object_status == "failed" && !(refund.status == RefundStatus.FAILED) then
      (HRes.hok, setRefundByStripeId db ev.object_id (refund.mark_as_failed ev.object_error now))
    else
      (HRes.hok, db)

/-- WebhookHandler.handle (lines 35-61): dispatch on the event type; the
dispute and invoice handlers only log, and an unmapped type returns True
without touching anything. -/
def webhookHandle (db : DB) (ev : StripeEvent) (now : Nat) : HRes × DB :=
  if ev.event_type == "payment_intent.succeeded" then
    handle_payment_succeeded db ev.object_id now
  else if ev.event_type == "payment_intent.payment_failed" then
    handle_payment_failed db ev.object_id ev.object_error now
  else if ev.event_type == "payment_intent.canceled" then
    handle_payment_canceled db ev.object_id
  else if ev.event_type == "payment_intent.processing" then
    handle_payment_processing db ev.object_id
  else if ev.event_type == "payment_intent.requires_action" then
    handle_payment_requires_action db ev.object_id
  else if ev.event_type == "refund.created" then
    handle_refund_created db ev now
  else if ev.event_type == "refund.updated" then
    handle_refund_updated db ev now
  else
    (HRes.hok, db)

/-! ## The webhook endpoint (payments/webhooks.py stripe_webhook) -/

inductive WebhookResponse
  | ok200
  | bad400 (msg : String)
  | err500
deriving DecidableEq, Repr

/-- WebhookEvent.mark_as_processed / mark_as_failed applied to the row
with the given event id. -/
def markWebhookEvent (db : DB) (eid : String) (st : WebhookStatus) (err : String)
    (now : Nat) : DB :=
  { db with webhook_events :=
      (updateBy (fun r => r.stripe_event_id == eid)
        (fun r => { r with status := st, error_message := err, processed_at := some now })
        db.webhook_events) }

/-- stripe_webhook (payments/webhooks.py lines 249-320).  sig_ok stands
for the signature header being present and verifying.  The view creates
the WebhookEvent row WITHOUT checking whether the event id was already
recorded; on a duplicate delivery the unique constraint on
stripe_event_id makes objects.create raise IntegrityError, which the
blanket except-Exception arm turns into an HTTP 500 (webhook_event is
not in locals, so nothing is marked), with no new row and no dispatch.
On a fresh event the row is created RECEIVED, the handler runs, and the
row is marked PROCESSED (HTTP 200), FAILED with the message Handler
returned False (HTTP 400), or FAILED with the exception text (HTTP
500). -/
def stripe_webhook (db : DB) (ev : StripeEvent) (sig_ok : Bool) (now : Nat) :
    WebhookResponse × DB :=
  if !sig_ok then
    (WebhookResponse.bad400 "Invalid signature", db)
  else if db.webhook_events.any (fun r => r.stripe_event_id == ev.id) then
    (WebhookResponse.err500, db)
  else
    let wrec : WebhookEventRec :=
      { stripe_event_id := ev.id, event_type := ev.event_type,
        status := WebhookStatus.RECEIVED, error_message := "", processed_at := none }
    let db1 := { db with webhook_events := db.webhook_events ++ [wrec] }
    match webhookHandle db1 ev now with
    | (HRes.hok, db2) =>
      (WebhookResponse.ok200, markWebhookEvent db2 ev.id WebhookStatus.PROCESSED "" now)
    | (HRes.hfail, db2) =>
      (WebhookResponse.bad400 "Handler failed",
        markWebhookEvent db2 ev.id WebhookStatus.FAILED "Handler returned False" now)
    | (HRes.hexc, db2) =>
      (WebhookResponse.err500,
        markWebhookEvent db2 ev.id WebhookStatus.FAILED "exception" now)

/-! ## Refund creation (payments/serializers.py RefundCreateSerializer
and payments/views.py RefundViewSet.create) -/

structure RefundRequest where
  payment_id : Nat
  amount : Option Int
  reason : String
  description : String
deriving DecidableEq, Repr

structure Requester where
  user_id : Nat
  is_staff : Bool
deriving DecidableEq, Repr

/-- validate_payment_id: the payment exists, the requester is staff or
the owner, and the payment can be refunded. -/
def validatePaymentId (db : DB) (user : Requester) (pid : Nat) : Option String :=
  match findPaymentById db pid with
  | none => some "Payment not found"
  | some payment =>
    if !(user.is_staff || payment.user_id == user.user_id) then
      some "Permission denied"
    else if !payment.can_be_refunded then
      some "Payment cannot be refunded"
    else
      none

/-- validate_amount: an explicit amount must be positive. -/
def validateAmount (amount : Option Int) : Option String :=
  match amount with
  | some a => if a ≤ 0 then some "Refund amount must be positive" else none
  | none => none

/-- RefundCreateSerializer.validate (payments/serializers.py lines
150-175): the over-refund check runs ONLY when an explicit amount was
supplied (the Python guard `if payment_id and amount`); an omitted
amount is never checked against the refunds already succeeded. -/
def validateRefundCross (db : DB) (req : RefundRequest) : Option String :=
  match req.amount with
  | some a =>
    match findPaymentById db req.payment_id with
    | some payment =>
      if succeededRefundSum db payment.id + a > payment.amount then
        some "Refund amount exceeds available amount"
      else
        none
    | none => none
  | none => none

/-- The serializer validation chain run by is_valid. -/
def refundSerializerValidate (db : DB) (user : Requester) (req : RefundRequest) :
    Option String :=
  match validatePaymentId db user req.payment_id with
  | some msg => some msg
  | none =>
    match validateAmount req.amount with
    | some msg => some msg
    | none => validateRefundCross db req

inductive RefundRes
  | created
  | bad400 (msg : String)
  | notFound404
deriving DecidableEq, Repr

/-- RefundViewSet.create (payments/views.py lines 331-394): validate
(raise_exception, so a validation error answers 400 with nothing
persisted and no gateway call), then refund the explicit amount or,
when omitted, the FULL payment.amount; call StripeClient.create_refund
(logged in gateway_refund_calls with the resulting gateway id rid) and
persist a PENDING Refund row. -/
def refund_create (db : DB) (user : Requester) (req : RefundRequest) (rid : String) :
    RefundRes × DB :=
  match refundSerializerValidate db user req with
  | some msg => (RefundRes.bad400 msg, db)
  | none =>
    match findPaymentById db req.payment_id with
    | none => (RefundRes.notFound404, db)
    | some payment =>
      let refund_amount := req.amount.getD payment.amount
      let db1 := { db with gateway_refund_calls :=
        db.gateway_refund_calls ++ [(payment.stripe_payment_intent_id, refund_amount)] }
      let r : RefundRec :=
        { payment_id := payment.id, stripe_refund_id := rid, amount := refund_amount,
          status := RefundStatus.PENDING, reason := req.reason,
          description := req.description, processed_at := none, failure_reason := "" }
      (RefundRes.created, { db1 with refunds := db1.refunds ++ [r] })

/-! ## Helper lemmas about row saves -/

/-- Looking a row up after a keyed save: the found row goes through the
update function, provided the update does not change which rows the
lookup matches. -/
theorem find?_updateBy (key key2 : α → Bool) (f : α → α) (l : List α)
    (h : ∀ x, key2 (if key x then f x else x) = key2 x) :
    (updateBy key f l).find? key2 = (l.find? key2).map (fun x => if key x then f x else x) := by
  induction l with
  | nil => rfl
  | cons a l ih =>
    by_cases hk : key2 a = true
    · have h2 : key2 (if key a then f a else a) = true := by rw [h a]; exact hk
      simp only [updateBy, List.map_cons, List.find?_cons_of_pos _ h2,
        List.find?_cons_of_pos _ hk]
      rfl
    · have hk' : key2 a = false := by revert hk; cases key2 a <;> simp
      have h2 : key2 (if key a then f a else a) = false := by rw [h a]; exact hk'
      simp only [updateBy, List.map_cons, List.find?_cons_of_neg, h2, hk',
        Bool.false_eq_true, not_false_iff]
      exact ih

/-- Specialisation to the row-replacing saves used by the model: after
saving a row whose key column still matches, the lookup returns exactly
the saved row. -/
theorem find?_updateBy_const (key : α → Bool) (v : α) (l : List α) (x : α)
    (hfind : l.find? key = some x) (hv : key v = true) :
    (updateBy key (fun _ => v) l).find? key = some v := by
  have h : ∀ y, key (if key y then v else y) = key y := by
    intro y
    by_cases hy : key y = true
    · rw [if_pos hy, hv, hy]
    · have : key y = false := by revert hy; cases key y <;> simp
      rw [this, if_neg]; rw [this]; simp
  rw [find?_updateBy key key (fun _ => v) l h, hfind]
  have hx : key x = true := List.find?_some hfind
  simp [hx]

/-! ## C6: the inventory ledger primitives -/

/-- C6: reserve (Product.reduce_stock) leaves the stock unchanged and
reports failure when the requested quantity exceeds quantity_available,
and otherwise decrements by exactly the requested quantity; release
(Product.increase_stock) always increments by exactly the requested
quantity; and with a non-negative request neither primitive can drive a
non-negative quantity_available negative. -/
theorem c6_inventory_ledger (p : Product) (qty : Int) (hq : 0 ≤ qty) :
    (qty > p.quantity_available → p.reduce_stock qty = (p, false)) ∧
    (qty ≤ p.quantity_available →
      p.reduce_stock qty =
        ({ p with quantity_available := p.quantity_available - qty }, true)) ∧
    (p.increase_stock qty).quantity_available = p.quantity_available + qty ∧
    (0 ≤ p.quantity_available →
      0 ≤ (p.reduce_stock qty).1.quantity_available ∧
      0 ≤ (p.increase_stock qty).quantity_available) := by
  unfold Product.reduce_stock Product.increase_stock
  refine ⟨fun h => ?_, fun h => ?_, rfl, fun h0 => ⟨?_, ?_⟩⟩
  · rw [if_neg]; omega
  · rw [if_pos]; omega
  · split <;> simp <;> omega
  · simpa using by omega

/-- Witness for C6 at a concrete product with stock 5 and request 2. -/
theorem c6_inventory_ledger_witness :
    (0 : Int) ≤ 2 ∧
    ((2 > (⟨9, 100, 5, true⟩ : Product).quantity_available →
        Product.reduce_stock ⟨9, 100, 5, true⟩ 2 = (⟨9, 100, 5, true⟩, false)) ∧
      (2 ≤ (⟨9, 100, 5, true⟩ : Product).quantity_available →
        Product.reduce_stock ⟨9, 100, 5, true⟩ 2 =
          ({ (⟨9, 100, 5, true⟩ : Product) with
              quantity_available := (⟨9, 100, 5, true⟩ : Product).quantity_available - 2 }, true)) ∧
      (Product.increase_stock ⟨9, 100, 5, true⟩ 2).quantity_available =
        (⟨9, 100, 5, true⟩ : Product).quantity_available + 2 ∧
      (0 ≤ (⟨9, 100, 5, true⟩ : Product).quantity_available →
        0 ≤ (Product.reduce_stock ⟨9, 100, 5, true⟩ 2).1.quantity_available ∧
        0 ≤ (Product.increase_stock ⟨9, 100, 5, true⟩ 2).quantity_available)) :=
  ⟨by decide, c6_inventory_ledger ⟨9, 100, 5, true⟩ 2 (by decide)⟩

/-! ## C1: duplicate webhook deliveries -/

/-- A pending order awaiting payment. -/
def c1Order : Order :=
  { id := 1, order_number := [], consumer := 7, status := OrderStatus.PENDING,
    total_amount := 1000, confirmed_at := none, shipped_at := none, delivered_at := none }

/-- Its pending payment. -/
def c1Payment : Payment :=
  { id := 1, order_id := 1, user_id := 7, stripe_payment_intent_id := "pi_1",
    amount := 1000, status := PaymentStatus.PENDING, processed_at := none,
    failure_reason := "" }

/-- Initial state for the duplicate-delivery run. -/
def c1Db : DB :=
  { products := [], cart_items := [], orders := [c1Order], order_items := [],
    status_history := [], payments := [c1Payment], refunds := [], webhook_events := [],
    confirm_calls := 0, gateway_refund_calls := [] }

/-- Delivery of the gateway event evt_1: payment_intent.succeeded for
intent pi_1. -/
def c1Ev : StripeEvent :=
  { id := "evt_1", event_type := "payment_intent.succeeded", object_id := "pi_1",
    object_status := "", object_error := "" }

/-- C1, evaluated at the failing input: the first delivery of evt_1 is
answered 200 after creating exactly one WebhookEvent row and applying
the transition (payment SUCCEEDED, order confirmed); the second delivery
of the same event id indeed creates no new row and applies no transition
(the state is bit-for-bit unchanged), but it is answered HTTP 500, not
success — the unique constraint makes the unconditional
WebhookEvent.objects.create raise, and the blanket exception arm turns
that into a server error, contradicting the specified idempotent replay
protection. -/
theorem c1_duplicate_delivery_returns_500 :
    (stripe_webhook c1Db c1Ev true 10).1 = WebhookResponse.ok200 ∧
    (stripe_webhook c1Db c1Ev true 10).2.webhook_events.length = 1 ∧
    findPaymentByIntent (stripe_webhook c1Db c1Ev true 10).2 "pi_1" =
      some { c1Payment with status := PaymentStatus.SUCCEEDED, processed_at := some 10 } ∧
    findOrder (stripe_webhook c1Db c1Ev true 10).2 1 =
      some { c1Order with status := OrderStatus.CONFIRMED, confirmed_at := some 10 } ∧
    (stripe_webhook c1Db c1Ev true 10).2.confirm_calls = 1 ∧
    (stripe_webhook (stripe_webhook c1Db c1Ev true 10).2 c1Ev true 20).1 =
      WebhookResponse.err500 ∧
    (stripe_webhook (stripe_webhook c1Db c1Ev true 10).2 c1Ev true 20).2 =
      (stripe_webhook c1Db c1Ev true 10).2 := by
  decide

/-! ## Lookup-after-save lemmas for the payment and order tables -/

theorem findPaymentByIntent_set (db : DB) (intent : String) (p v : Payment)
    (h : findPaymentByIntent db intent = some p)
    (hv : v.stripe_payment_intent_id = p.stripe_payment_intent_id) :
    findPaymentByIntent (setPaymentByIntent db intent v) intent = some v := by
  have hfind : db.payments.find? (fun x => x.stripe_payment_intent_id == intent) = some p := h
  have hkey := List.find?_some hfind
  have hv' : (v.stripe_payment_intent_id == intent) = true := by rw [hv]; exact hkey
  exact find?_updateBy_const _ v _ p hfind hv'

theorem findOrder_set (db : DB) (oid : Nat) (o v : Order)
    (h : findOrder db oid = some o) (hv : v.id = o.id) :
    findOrder (setOrder db oid v) oid = some v := by
  have hfind : db.orders.find? (fun x => x.id == oid) = some o := h
  have hkey := List.find?_some hfind
  have hv' : (v.id == oid) = true := by rw [hv]; exact hkey
  exact find?_updateBy_const _ v _ o hfind hv'

/-! ## C3: no monotonic-rank check on out-of-order webhook states -/

/-- A payment already SUCCEEDED (its order already confirmed). -/
def c3Payment : Payment :=
  { id := 2, order_id := 2, user_id := 7, stripe_payment_intent_id := "pi_2",
    amount := 500, status := PaymentStatus.SUCCEEDED, processed_at := some 5,
    failure_reason := "" }

def c3Order : Order :=
  { id := 2, order_number := [], consumer := 7, status := OrderStatus.CONFIRMED,
    total_amount := 500, confirmed_at := some 5, shipped_at := none, delivered_at := none }

def c3Db : DB :=
  { products := [], cart_items := [], orders := [c3Order], order_items := [],
    status_history := [], payments := [c3Payment], refunds := [], webhook_events := [],
    confirm_calls := 0, gateway_refund_calls := [] }

/-- A late payment_intent.processing delivery for the same intent. -/
def c3Ev : StripeEvent :=
  { id := "evt_late", event_type := "payment_intent.processing", object_id := "pi_2",
    object_status := "", object_error := "" }

/-- Counterexample to C3: a payment_intent.processing event delivered
after the payment is already stored SUCCEEDED is not ignored — the
handler overwrites the stored status back to PROCESSING and the
endpoint answers 200. -/
theorem c3_processing_overwrites_succeeded :
    (stripe_webhook c3Db c3Ev true 30).1 = WebhookResponse.ok200 ∧
    findPaymentByIntent (stripe_webhook c3Db c3Ev true 30).2 "pi_2" =
      some { c3Payment with status := PaymentStatus.PROCESSING } := by
  decide

/-- C3 amended: the payment_intent.processing and payment_intent.canceled
handlers perform no monotonic-rank comparison at all: whatever status the
payment currently stores (including SUCCEEDED, FAILED or CANCELLED), the
delivered lower-rank state is applied unconditionally, overwriting the
stored status with PROCESSING respectively CANCELLED. -/
theorem c3_amended_lower_rank_overwrites (db : DB) (intent : String) (p : Payment)
    (hp : findPaymentByIntent db intent = some p) :
    (handle_payment_processing db intent).1 = HRes.hok ∧
    findPaymentByIntent (handle_payment_processing db intent).2 intent =
      some { p with status := PaymentStatus.PROCESSING } ∧
    (handle_payment_canceled db intent).1 = HRes.hok ∧
    findPaymentByIntent (handle_payment_canceled db intent).2 intent =
      some { p with status := PaymentStatus.CANCELLED } := by
  have h1 :=
    findPaymentByIntent_set db intent p { p with status := PaymentStatus.PROCESSING } hp rfl
  have h2 :=
    findPaymentByIntent_set db intent p { p with status := PaymentStatus.CANCELLED } hp rfl
  refine ⟨by simp only [handle_payment_processing, hp], ?_,
    by simp only [handle_payment_canceled, hp], ?_⟩
  · simpa only [handle_payment_processing, hp] using h1
  · simpa only [handle_payment_canceled, hp] using h2

/-- Witness for the amended C3 at the concrete SUCCEEDED payment. -/
theorem c3_amended_witness :
    findPaymentByIntent c3Db "pi_2" = some c3Payment ∧
    ((handle_payment_processing c3Db "pi_2").1 = HRes.hok ∧
      findPaymentByIntent (handle_payment_processing c3Db "pi_2").2 "pi_2" =
        some { c3Payment with status := PaymentStatus.PROCESSING } ∧
      (handle_payment_canceled c3Db "pi_2").1 = HRes.hok ∧
      findPaymentByIntent (handle_payment_canceled c3Db "pi_2").2 "pi_2" =
        some { c3Payment with status := PaymentStatus.CANCELLED }) :=
  ⟨by decide, c3_amended_lower_rank_overwrites c3Db "pi_2" c3Payment (by decide)⟩

/-! ## Frame facts: saves touch only their own table -/

theorem findPaymentByIntent_setOrder (db : DB) (oid : Nat) (o : Order) (i : String) :
    findPaymentByIntent (setOrder db oid o) i = findPaymentByIntent db i := rfl

theorem findOrder_setPaymentByIntent (db : DB) (i : String) (p : Payment) (oid : Nat) :
    findOrder (setPaymentByIntent db i p) oid = findOrder db oid := rfl

/-! ## C2: the succeeded handler confirms once and is idempotent -/

/-- C2: with the linked order still PENDING, handling a
payment_intent.succeeded event marks the payment SUCCEEDED and invokes
Order.confirm exactly once, leaving the order CONFIRMED with
confirmed_at stamped and appending no history row; handling the same
event again returns success, leaves the payment status and the order
row unchanged, performs no further confirm call and appends no history
row. -/
theorem c2_succeeded_handler_idempotent (db : DB) (intent : String) (now now2 : Nat)
    (p : Payment) (o : Order)
    (hp : findPaymentByIntent db intent = some p)
    (ho : findOrder db p.order_id = some o)
    (hos : o.status = OrderStatus.PENDING) :
    (handle_payment_succeeded db intent now).1 = HRes.hok ∧
    findPaymentByIntent (handle_payment_succeeded db intent now).2 intent =
      some (p.mark_as_succeeded now) ∧
    findOrder (handle_payment_succeeded db intent now).2 p.order_id =
      some { o with status := OrderStatus.CONFIRMED, confirmed_at := some now } ∧
    (handle_payment_succeeded db intent now).2.status_history = db.status_history ∧
    (handle_payment_succeeded db intent now).2.confirm_calls = db.confirm_calls + 1 ∧
    (handle_payment_succeeded (handle_payment_succeeded db intent now).2 intent now2).1 =
      HRes.hok ∧
    findPaymentByIntent
        (handle_payment_succeeded (handle_payment_succeeded db intent now).2 intent now2).2
        intent =
      some ((p.mark_as_succeeded now).mark_as_succeeded now2) ∧
    ((p.mark_as_succeeded now).mark_as_succeeded now2).status =
      (p.mark_as_succeeded now).status ∧
    findOrder
        (handle_payment_succeeded (handle_payment_succeeded db intent now).2 intent now2).2
        p.order_id =
      findOrder (handle_payment_succeeded db intent now).2 p.order_id ∧
    (handle_payment_succeeded (handle_payment_succeeded db intent now).2 intent now2).2.status_history =
      (handle_payment_succeeded db intent now).2.status_history ∧
    (handle_payment_succeeded (handle_payment_succeeded db intent now).2 intent now2).2.confirm_calls =
      (handle_payment_succeeded db intent now).2.confirm_calls := by
  have hfo : findOrder (setPaymentByIntent db intent (p.mark_as_succeeded now)) p.order_id =
      some o := ho
  have e1 : handle_payment_succeeded db intent now =
      (HRes.hok,
        { setOrder (setPaymentByIntent db intent (p.mark_as_succeeded now)) p.order_id
            { o with status := OrderStatus.CONFIRMED, confirmed_at := some now } with
          confirm_calls := db.confirm_calls + 1 }) := by
    simp only [handle_payment_succeeded, hp]
    rw [hfo]
    simp [Order.confirm, hos, setOrder, setPaymentByIntent]
  have hp1 : findPaymentByIntent
      (handle_payment_succeeded db intent now).2 intent = some (p.mark_as_succeeded now) := by
    rw [e1]
    exact findPaymentByIntent_set db intent p (p.mark_as_succeeded now) hp rfl
  have ho1 : findOrder (handle_payment_succeeded db intent now).2 p.order_id =
      some { o with status := OrderStatus.CONFIRMED, confirmed_at := some now } := by
    rw [e1]
    exact findOrder_set (setPaymentByIntent db intent (p.mark_as_succeeded now)) p.order_id o
      { o with status := OrderStatus.CONFIRMED, confirmed_at := some now } hfo rfl
  have e2gen : ∀ S : DB, findPaymentByIntent S intent = some (p.mark_as_succeeded now) →
      findOrder S p.order_id =
        some { o with status := OrderStatus.CONFIRMED, confirmed_at := some now } →
      handle_payment_succeeded S intent now2 =
        (HRes.hok,
          setPaymentByIntent S intent ((p.mark_as_succeeded now).mark_as_succeeded now2)) := by
    intro S h1 h2
    simp only [handle_payment_succeeded, h1]
    rw [findOrder_setPaymentByIntent]
    have hord : (p.mark_as_succeeded now).order_id = p.order_id := rfl
    rw [hord, h2]
    simp
  have e2 := e2gen (handle_payment_succeeded db intent now).2 hp1 ho1
  have g1 : (handle_payment_succeeded db intent now).1 = HRes.hok := by rw [e1]
  have g4 : (handle_payment_succeeded db intent now).2.status_history = db.status_history := by
    rw [e1]; exact rfl
  have g5 : (handle_payment_succeeded db intent now).2.confirm_calls = db.confirm_calls + 1 := by
    rw [e1]
  have g6 : (handle_payment_succeeded (handle_payment_succeeded db intent now).2 intent
      now2).1 = HRes.hok := by rw [e2]
  have g7 : findPaymentByIntent
      (handle_payment_succeeded (handle_payment_succeeded db intent now).2 intent now2).2
      intent = some ((p.mark_as_succeeded now).mark_as_succeeded now2) := by
    rw [e2]
    exact findPaymentByIntent_set (handle_payment_succeeded db intent now).2 intent
      (p.mark_as_succeeded now) ((p.mark_as_succeeded now).mark_as_succeeded now2) hp1 rfl
  have g9 : findOrder
      (handle_payment_succeeded (handle_payment_succeeded db intent now).2 intent now2).2
      p.order_id = findOrder (handle_payment_succeeded db intent now).2 p.order_id := by
    rw [e2]; exact rfl
  have g10 : (handle_payment_succeeded (handle_payment_succeeded db intent now).2 intent
      now2).2.status_history = (handle_payment_succeeded db intent now).2.status_history := by
    rw [e2]; exact rfl
  have g11 : (handle_payment_succeeded (handle_payment_succeeded db intent now).2 intent
      now2).2.confirm_calls = (handle_payment_succeeded db intent now).2.confirm_calls := by
    rw [e2]; exact rfl
  exact ⟨g1, hp1, ho1, g4, g5, g6, g7, rfl, g9, g10, g11⟩

/-- Witness for C2: the concrete PENDING payment and order of the C1
state, handled twice. -/
theorem c2_succeeded_handler_witness :
    findPaymentByIntent c1Db "pi_1" = some c1Payment ∧
    findOrder c1Db c1Payment.order_id = some c1Order ∧
    c1Order.status = OrderStatus.PENDING ∧
    ((handle_payment_succeeded c1Db "pi_1" 10).1 = HRes.hok ∧
      findPaymentByIntent (handle_payment_succeeded c1Db "pi_1" 10).2 "pi_1" =
        some (c1Payment.mark_as_succeeded 10) ∧
      findOrder (handle_payment_succeeded c1Db "pi_1" 10).2 c1Payment.order_id =
        some { c1Order with status := OrderStatus.CONFIRMED, confirmed_at := some 10 } ∧
      (handle_payment_succeeded c1Db "pi_1" 10).2.status_history = c1Db.status_history ∧
      (handle_payment_succeeded c1Db "pi_1" 10).2.confirm_calls = c1Db.confirm_calls + 1 ∧
      (handle_payment_succeeded (handle_payment_succeeded c1Db "pi_1" 10).2 "pi_1" 20).1 =
        HRes.hok ∧
      findPaymentByIntent
          (handle_payment_succeeded (handle_payment_succeeded c1Db "pi_1" 10).2 "pi_1" 20).2
          "pi_1" =
        some ((c1Payment.mark_as_succeeded 10).mark_as_succeeded 20) ∧
      ((c1Payment.mark_as_succeeded 10).mark_as_succeeded 20).status =
        (c1Payment.mark_as_succeeded 10).status ∧
      findOrder
          (handle_payment_succeeded (handle_payment_succeeded c1Db "pi_1" 10).2 "pi_1" 20).2
          c1Payment.order_id =
        findOrder (handle_payment_succeeded c1Db "pi_1" 10).2 c1Payment.order_id ∧
      (handle_payment_succeeded (handle_payment_succeeded c1Db "pi_1" 10).2 "pi_1"
            20).2.status_history =
        (handle_payment_succeeded c1Db "pi_1" 10).2.status_history ∧
      (handle_payment_succeeded (handle_payment_succeeded c1Db "pi_1" 10).2 "pi_1"
            20).2.confirm_calls =
        (handle_payment_succeeded c1Db "pi_1" 10).2.confirm_calls) :=
  ⟨by decide, by decide, by decide,
    c2_succeeded_handler_idempotent c1Db "pi_1" 10 20 c1Payment c1Order
      (by decide) (by decide) (by decide)⟩

/-! ## C5: refund over-refund validation -/

/-- A succeeded payment of 10.00 (1000 cents). -/
def c5Payment : Payment :=
  { id := 3, order_id := 3, user_id := 8, stripe_payment_intent_id := "pi_3",
    amount := 1000, status := PaymentStatus.SUCCEEDED, processed_at := some 5,
    failure_reason := "" }

/-- An already succeeded refund of 6.00 on that payment. -/
def c5Refund : RefundRec :=
  { payment_id := 3, stripe_refund_id := "re_1", amount := 600,
    status := RefundStatus.SUCCEEDED, reason := "REQUESTED_BY_CUSTOMER",
    description := "", processed_at := some 6, failure_reason := "" }

def c5Db : DB :=
  { products := [], cart_items := [], orders := [], order_items := [],
    status_history := [], payments := [c5Payment], refunds := [c5Refund],
    webhook_events := [], confirm_calls := 0, gateway_refund_calls := [] }

/-- Refund request by the owner with the amount omitted. -/
def c5Req : RefundRequest :=
  { payment_id := 3, amount := none, reason := "REQUESTED_BY_CUSTOMER", description := "" }

def c5User : Requester := { user_id := 8, is_staff := false }

/-- Counterexample to C5: on a 10.00 payment already carrying 6.00 of
SUCCEEDED refunds, a request with the amount omitted is NOT rejected:
the cross-field check is guarded by the amount being present, and the
omitted amount defaults to the full payment amount 10.00 — not the
remaining 4.00 — which is sent straight to the gateway and persisted as
a PENDING refund row. -/
theorem c5_omitted_amount_skips_check :
    (refund_create c5Db c5User c5Req "re_2").1 = RefundRes.created ∧
    (refund_create c5Db c5User c5Req "re_2").2.gateway_refund_calls = [("pi_3", 1000)] ∧
    succeededRefundSum c5Db 3 = 600 ∧
    c5Payment.amount - succeededRefundSum c5Db 3 = 400 ∧
    (1000 : Int) ≠ 400 ∧
    succeededRefundSum c5Db 3 + 1000 > c5Payment.amount := by
  decide

/-- C5 amended: when an explicit amount is supplied, any request whose
amount plus the sum of existing SUCCEEDED refunds exceeds
Payment.amount is rejected by validation with nothing persisted and no
gateway call (the 5.00-on-10.00-with-6.00 scenario); when the amount is
omitted no over-refund check runs and the full Payment.amount is used. -/
theorem c5_amended_explicit_amount_rejected (db : DB) (user : Requester)
    (req : RefundRequest) (rid : String) (a : Int) (p : Payment)
    (ha : req.amount = some a)
    (hp : findPaymentById db req.payment_id = some p)
    (hover : succeededRefundSum db p.id + a > p.amount) :
    (∃ msg, (refund_create db user req rid).1 = RefundRes.bad400 msg) ∧
    (refund_create db user req rid).2 = db := by
  have hv : ∃ msg, refundSerializerValidate db user req = some msg := by
    cases h1 : validatePaymentId db user req.payment_id with
    | some m => exact ⟨m, by simp [refundSerializerValidate, h1]⟩
    | none =>
      by_cases hneg : a ≤ 0
      · refine ⟨"Refund amount must be positive", ?_⟩
        simp [refundSerializerValidate, h1, validateAmount, ha, hneg]
      · have hcross : validateRefundCross db req =
            some "Refund amount exceeds available amount" := by
          simp [validateRefundCross, ha, hp, hover]
        refine ⟨"Refund amount exceeds available amount", ?_⟩
        simp [refundSerializerValidate, h1, validateAmount, ha, hneg, hcross]
  obtain ⟨msg, hmsg⟩ := hv
  exact ⟨⟨msg, by simp [refund_create, hmsg]⟩, by simp [refund_create, hmsg]⟩

/-- Refund request for 5.00 with the amount explicit: the spec scenario. -/
def c5ReqB : RefundRequest :=
  { payment_id := 3, amount := some 500, reason := "REQUESTED_BY_CUSTOMER",
    description := "" }

/-- Witness for the amended C5: the 5.00-on-10.00-with-6.00 scenario is
rejected with no gateway call and no persisted row. -/
theorem c5_amended_witness :
    c5ReqB.amount = some 500 ∧
    findPaymentById c5Db c5ReqB.payment_id = some c5Payment ∧
    succeededRefundSum c5Db c5Payment.id + 500 > c5Payment.amount ∧
    ((∃ msg, (refund_create c5Db c5User c5ReqB "re_2").1 = RefundRes.bad400 msg) ∧
      (refund_create c5Db c5User c5ReqB "re_2").2 = c5Db) :=
  ⟨by decide, by decide, by decide,
    c5_amended_explicit_amount_rejected c5Db c5User c5ReqB "re_2" 500 c5Payment
      (by decide) (by decide) (by decide)⟩

/-! ## C7: the order status transition graph -/

/-- A freshly created pending order. -/
def c7Order : Order :=
  { id := 4, order_number := [], consumer := 9, status := OrderStatus.PENDING,
    total_amount := 700, confirmed_at := none, shipped_at := none, delivered_at := none }

/-- Counterexample to C7: the dedicated update_status endpoint does
enforce the graph, but the generic ModelViewSet update route uses
OrderSerializer, whose field list contains status while its
read_only_fields does not, so a PUT or PATCH writes any submitted
status directly: PENDING jumps straight to SHIPPED with no
InvalidTransition error, even though that edge is outside the table. -/
theorem c7_generic_update_bypasses_graph :
    "status" ∈ orderSerializerFields ∧
    "status" ∉ orderSerializerReadOnlyFields ∧
    (orderSerializerPatchStatus c7Order OrderStatus.SHIPPED).status = OrderStatus.SHIPPED ∧
    OrderStatus.SHIPPED ∉ valid_transitions OrderStatus.PENDING := by
  decide

/-- C7 amended: a status update through the dedicated update_status
action succeeds exactly along the transition table (PENDING to
CONFIRMED or CANCELLED, CONFIRMED to SHIPPED or CANCELLED, SHIPPED to
DELIVERED, nothing from CANCELLED or DELIVERED); any other request
fails with a validation error (the InvalidTransition of the spec
taxonomy) leaving the store untouched.  The generic order-update route
of the ModelViewSet, however, writes any submitted status through
OrderSerializer without consulting the table. -/
theorem c7_amended_update_status_graph (db : DB) (oid : Nat) (new_status : OrderStatus)
    (actor : Nat) (reason : String) (now : Nat) (o : Order)
    (ho : findOrder db oid = some o) :
    ((update_order_status db oid new_status actor reason now).1 = ApiRes.ok ↔
      new_status ∈ valid_transitions o.status) ∧
    (new_status ∉ valid_transitions o.status →
      (update_order_status db oid new_status actor reason now).2 = db) := by
  by_cases hm : new_status ∈ valid_transitions o.status
  · constructor
    · constructor
      · intro _; exact hm
      · intro _
        simp [update_order_status, ho, hm]
    · intro hc; exact absurd hm hc
  · constructor
    · constructor
      · intro hok
        exfalso
        have : (update_order_status db oid new_status actor reason now).1 =
            ApiRes.validationError "Cannot change status." := by
          simp [update_order_status, ho, hm]
        rw [this] at hok
        exact absurd hok (by simp)
      · intro h; exact absurd h hm
    · intro _
      simp [update_order_status, ho, hm]

def c7Db : DB :=
  { products := [], cart_items := [], orders := [c7Order], order_items := [],
    status_history := [], payments := [], refunds := [], webhook_events := [],
    confirm_calls := 0, gateway_refund_calls := [] }

/-- Witness for the amended C7: PENDING to SHIPPED through the dedicated
endpoint is refused and mutates nothing. -/
theorem c7_amended_witness :
    findOrder c7Db 4 = some c7Order ∧
    (((update_order_status c7Db 4 OrderStatus.SHIPPED 9 "" 40).1 = ApiRes.ok ↔
        OrderStatus.SHIPPED ∈ valid_transitions c7Order.status) ∧
      (OrderStatus.SHIPPED ∉ valid_transitions c7Order.status →
        (update_order_status c7Db 4 OrderStatus.SHIPPED 9 "" 40).2 = c7Db)) :=
  ⟨by decide, c7_amended_update_status_graph c7Db 4 OrderStatus.SHIPPED 9 "" 40 c7Order
    (by decide)⟩

/-! ## Frame lemmas for the stock-restoring loop -/

/-- releaseItems touches only the products table. -/
theorem releaseItems_eta (l : List OrderItem) : ∀ db : DB,
    releaseItems db l = { db with products := (releaseItems db l).products } := by
  induction l with
  | nil => intro db; rfl
  | cons it rest ih =>
    intro db
    simp only [releaseItems]
    cases h : findProduct db it.product_id with
    | none => exact (ih db).trans rfl
    | some p => exact (ih _).trans rfl

theorem releaseItems_status_history (l : List OrderItem) (db : DB) :
    (releaseItems db l).status_history = db.status_history := by
  rw [releaseItems_eta l db]

theorem releaseItems_orders (l : List OrderItem) (db : DB) :
    (releaseItems db l).orders = db.orders := by
  rw [releaseItems_eta l db]

/-- The full effect of a successful cancellation: stock is restored for
every item of the order, the order row flips to CANCELLED, and one
history row is appended whose old_status is computed from the
already-flipped order, hence always PENDING. -/
theorem cancel_order_eq (db : DB) (oid actor : Nat) (reason : String) (now : Nat)
    (o : Order) (ho : findOrder db oid = some o) (hc : o.can_be_cancelled = true) :
    cancel_order db oid actor reason now =
      (ApiRes.ok,
        { setOrder (releaseItems db (orderItemsOf db o.id)) o.id
            { o with status := OrderStatus.CANCELLED } with
          status_history := (releaseItems db (orderItemsOf db o.id)).status_history ++
            [{ order_id := oid, old_status := some OrderStatus.PENDING,
               new_status := OrderStatus.CANCELLED, changed_by := actor, reason := reason,
               changed_at := now }] }) := by
  simp [cancel_order, ho, hc, Order.cancel, setOrder]

/-! ## C8: which transitions write history rows -/

/-- Counterexample to C8: the automatic confirm triggered by a
payment_intent.succeeded webhook moves the order PENDING to CONFIRMED
yet appends NO OrderStatusHistory row at all — neither Order.confirm
nor the webhook path writes one. -/
theorem c8_webhook_confirm_appends_no_history :
    findOrder (stripe_webhook c1Db c1Ev true 10).2 1 =
      some { c1Order with status := OrderStatus.CONFIRMED, confirmed_at := some 10 } ∧
    (stripe_webhook c1Db c1Ev true 10).2.status_history = [] := by
  decide

/-- C8 amended: a successful manual update through update_status appends
exactly one history row recording the true old status, the new status,
the actor and the reason; the automatic confirm performed by the
payment-succeeded webhook handler appends no history row at all; and a
successful cancellation of a CONFIRMED order appends one row that
falsely records old_status as PENDING (the serializer reads the status
after the cancel already flipped it).  History rows are only ever
appended by these operations, never rewritten. -/
theorem c8_amended_history_bookkeeping :
    (∀ db : DB, ∀ oid : Nat, ∀ new_status : OrderStatus, ∀ actor : Nat, ∀ reason : String,
      ∀ now : Nat, ∀ o : Order, ∀ db' : DB,
        findOrder db oid = some o →
        update_order_status db oid new_status actor reason now = (ApiRes.ok, db') →
        db'.status_history = db.status_history ++
          [{ order_id := oid, old_status := some o.status, new_status := new_status,
             changed_by := actor, reason := reason, changed_at := now }]) ∧
    (∀ db : DB, ∀ intent : String, ∀ now : Nat,
        (handle_payment_succeeded db intent now).2.status_history = db.status_history) ∧
    (∀ db : DB, ∀ oid actor : Nat, ∀ reason : String, ∀ now : Nat, ∀ o : Order, ∀ db' : DB,
        findOrder db oid = some o → o.status = OrderStatus.CONFIRMED →
        cancel_order db oid actor reason now = (ApiRes.ok, db') →
        db'.status_history = db.status_history ++
          [{ order_id := oid, old_status := some OrderStatus.PENDING,
             new_status := OrderStatus.CANCELLED, changed_by := actor, reason := reason,
             changed_at := now }]) := by
  refine ⟨?_, ?_, ?_⟩
  · intro db oid new_status actor reason now o db' ho hup
    simp only [update_order_status, ho] at hup
    by_cases hm : new_status ∈ valid_transitions o.status
    · rw [if_pos hm, Prod.mk.injEq] at hup
      obtain ⟨-, hdb⟩ := hup
      rw [← hdb]
      exact rfl
    · rw [if_neg hm] at hup
      exact absurd hup (by simp)
  · intro db intent now
    cases hfp : findPaymentByIntent db intent with
    | none => simp only [handle_payment_succeeded, hfp]
    | some p =>
      cases hfo : findOrder (setPaymentByIntent db intent (p.mark_as_succeeded now))
          p.order_id with
      | none =>
        simp only [handle_payment_succeeded, hfp, hfo]
        exact rfl
      | some o =>
        by_cases hs : (o.status == OrderStatus.PENDING) = true
        · simp only [handle_payment_succeeded, hfp, hfo, if_pos hs]
          exact rfl
        · simp only [handle_payment_succeeded, hfp, hfo, if_neg hs]
          exact rfl
  · intro db oid actor reason now o db' ho hst hcan
    have hc : o.can_be_cancelled = true := by
      simp [Order.can_be_cancelled, hst]
    rw [cancel_order_eq db oid actor reason now o ho hc, Prod.mk.injEq] at hcan
    obtain ⟨-, hdb⟩ := hcan
    rw [← hdb]
    rw [releaseItems_status_history]

/-- A confirmed order with a pending payment, for the C8 witness. -/
def c8Order : Order :=
  { id := 5, order_number := [], consumer := 9, status := OrderStatus.CONFIRMED,
    total_amount := 800, confirmed_at := some 8, shipped_at := none, delivered_at := none }

def c8Payment : Payment :=
  { id := 5, order_id := 5, user_id := 9, stripe_payment_intent_id := "pi_5",
    amount := 800, status := PaymentStatus.PENDING, processed_at := none,
    failure_reason := "" }

def c8Db : DB :=
  { products := [], cart_items := [], orders := [c8Order], order_items := [],
    status_history := [], payments := [c8Payment], refunds := [], webhook_events := [],
    confirm_calls := 0, gateway_refund_calls := [] }

/-- Witness for the amended C8 at the confirmed order: the manual
CONFIRMED-to-SHIPPED update writes the true old status, the webhook
handler writes nothing, and cancellation writes PENDING as old status
although the order was CONFIRMED. -/
theorem c8_amended_witness :
    (findOrder c8Db 5 = some c8Order ∧
      update_order_status c8Db 5 OrderStatus.SHIPPED 9 "ship" 50 =
        (ApiRes.ok, (update_order_status c8Db 5 OrderStatus.SHIPPED 9 "ship" 50).2) ∧
      (update_order_status c8Db 5 OrderStatus.SHIPPED 9 "ship" 50).2.status_history =
        c8Db.status_history ++
          [{ order_id := 5, old_status := some c8Order.status,
             new_status := OrderStatus.SHIPPED, changed_by := 9, reason := "ship",
             changed_at := 50 }]) ∧
    ((handle_payment_succeeded c8Db "pi_5" 60).2.status_history = c8Db.status_history) ∧
    (findOrder c8Db 5 = some c8Order ∧ c8Order.status = OrderStatus.CONFIRMED ∧
      cancel_order c8Db 5 9 "bye" 70 = (ApiRes.ok, (cancel_order c8Db 5 9 "bye" 70).2) ∧
      (cancel_order c8Db 5 9 "bye" 70).2.status_history =
        c8Db.status_history ++
          [{ order_id := 5, old_status := some OrderStatus.PENDING,
             new_status := OrderStatus.CANCELLED, changed_by := 9, reason := "bye",
             changed_at := 70 }]) :=
  ⟨⟨by decide, by decide,
     c8_amended_history_bookkeeping.1 c8Db 5 OrderStatus.SHIPPED 9 "ship" 50 c8Order _
       (by decide) (by decide)⟩,
   c8_amended_history_bookkeeping.2.1 c8Db "pi_5" 60,
   ⟨by decide, by decide, by decide,
     c8_amended_history_bookkeeping.2.2 c8Db 5 9 "bye" 70 c8Order _
       (by decide) (by decide) (by decide)⟩⟩

/-! ## Product-table lookup lemmas -/

theorem findProduct_setProduct_other (db : DB) (pid pid' : Nat) (p : Product)
    (hne : pid ≠ pid') :
    findProduct (setProduct db pid' p) pid = findProduct db pid := by
  have h : ∀ x : Nat × Product,
      ((if (x.1 == pid') = true then ((pid', p) : Nat × Product) else x).1 == pid) =
      (x.1 == pid) := by
    intro x
    by_cases hx : (x.1 == pid') = true
    · have hx1 : x.1 = pid' := by simpa using hx
      rw [if_pos hx, hx1]
    · rw [if_neg hx]
  have hstep : findProduct (setProduct db pid' p) pid =
      ((updateBy (fun x => x.1 == pid') (fun _ => (pid', p)) db.products).find?
        (fun x => x.1 == pid)).map (fun x => x.2) := rfl
  have hstep2 : findProduct db pid =
      (db.products.find? (fun x => x.1 == pid)).map (fun x => x.2) := rfl
  rw [hstep, hstep2, find?_updateBy _ _ _ _ h]
  cases hf : db.products.find? (fun x => x.1 == pid) with
  | none => rfl
  | some pr =>
    have hpr : pr.1 = pid := by simpa using List.find?_some hf
    have hno : (pr.1 == pid') = false := by
      simp [hpr]
      exact hne
    simp only [Option.map_some, Option.map]
    rw [if_neg (by rw [hno]; exact Bool.false_ne_true)]

theorem findProduct_setProduct_self (db : DB) (pid : Nat) (pOld v : Product)
    (h : findProduct db pid = some pOld) :
    findProduct (setProduct db pid v) pid = some v := by
  cases hf : db.products.find? (fun x => x.1 == pid) with
  | none =>
    exfalso
    have : findProduct db pid = none := by
      unfold findProduct
      rw [hf]
      rfl
    rw [this] at h
    exact absurd h (by simp)
  | some pr =>
    have hstep : findProduct (setProduct db pid v) pid =
        ((updateBy (fun x => x.1 == pid) (fun _ => (pid, v)) db.products).find?
          (fun x => x.1 == pid)).map (fun x => x.2) := rfl
    rw [hstep, find?_updateBy_const _ _ _ pr hf (by simp)]
    rfl

/-! ## The stock effect of the cancel loop -/

theorem releaseItems_findProduct_other (l : List OrderItem) : ∀ db : DB, ∀ pid : Nat,
    pid ∉ l.map (fun it => it.product_id) →
    findProduct (releaseItems db l) pid = findProduct db pid := by
  induction l with
  | nil => intro db pid _; rfl
  | cons it rest ih =>
    intro db pid h
    simp only [List.map_cons, List.mem_cons, not_or] at h
    obtain ⟨h1, h2⟩ := h
    simp only [releaseItems]
    cases hp : findProduct db it.product_id with
    | none => exact ih db pid h2
    | some p =>
      rw [ih _ pid h2]
      exact findProduct_setProduct_other db pid it.product_id
        (p.increase_stock it.quantity) h1

theorem releaseItems_stock (l : List OrderItem) : ∀ db : DB,
    (l.map (fun it => it.product_id)).Nodup →
    ∀ it ∈ l, ∀ p : Product, findProduct db it.product_id = some p →
    findProduct (releaseItems db l) it.product_id =
      some (p.increase_stock it.quantity) := by
  induction l with
  | nil => intro db _ it hmem; exact absurd hmem (List.not_mem_nil it)
  | cons it0 rest ih =>
    intro db hnd it hmem p hp
    simp only [List.map_cons, List.nodup_cons] at hnd
    obtain ⟨h1, h2⟩ := hnd
    rcases List.mem_cons.mp hmem with heq | hmem'
    · subst heq
      simp only [releaseItems, hp]
      rw [releaseItems_findProduct_other rest _ it.product_id h1]
      exact findProduct_setProduct_self db it.product_id p _ hp
    · have hin : it.product_id ∈ rest.map (fun x => x.product_id) :=
        List.mem_map_of_mem _ hmem'
      simp only [releaseItems]
      cases hp0 : findProduct db it0.product_id with
      | none => exact ih db h2 it hmem' p hp
      | some p0 =>
        have hne : it.product_id ≠ it0.product_id := by
          intro hc
          rw [hc] at hin
          exact h1 hin
        apply ih _ h2 it hmem' p
        rw [findProduct_setProduct_other db it.product_id it0.product_id _ hne]
        exact hp

/-! ## C9: cancellation restores stock exactly once -/

theorem findOrder_releaseItems (l : List OrderItem) (db : DB) (oid : Nat) :
    findOrder (releaseItems db l) oid = findOrder db oid := by
  unfold findOrder
  rw [releaseItems_orders]

/-- C9: cancelling a PENDING or CONFIRMED order succeeds, adds every
item quantity back onto the corresponding product (each product with a
cart-unique item line is incremented by exactly that quantity), flips
the order to CANCELLED — all in one atomic step — and a second cancel
attempt is rejected with the cannot-be-cancelled validation error (the
InvalidTransition of the spec taxonomy), changing neither status nor
stock, so stock is restored at most once. -/
theorem c9_cancel_restores_stock_once (db : DB) (oid actor : Nat) (reason : String)
    (now now2 : Nat) (o : Order)
    (ho : findOrder db oid = some o)
    (hst : o.status = OrderStatus.PENDING ∨ o.status = OrderStatus.CONFIRMED)
    (hnd : ((orderItemsOf db o.id).map (fun it => it.product_id)).Nodup) :
    (cancel_order db oid actor reason now).1 = ApiRes.ok ∧
    findOrder (cancel_order db oid actor reason now).2 o.id =
      some { o with status := OrderStatus.CANCELLED } ∧
    (∀ it ∈ orderItemsOf db o.id, ∀ p : Product, findProduct db it.product_id = some p →
      findProduct (cancel_order db oid actor reason now).2 it.product_id =
        some (p.increase_stock it.quantity)) ∧
    (cancel_order (cancel_order db oid actor reason now).2 o.id actor reason now2).1 =
      ApiRes.validationError "This order cannot be cancelled." ∧
    (cancel_order (cancel_order db oid actor reason now).2 o.id actor reason now2).2 =
      (cancel_order db oid actor reason now).2 := by
  have hoid : o.id = oid := by simpa using List.find?_some ho
  have ho' : findOrder db o.id = some o := by rw [hoid]; exact ho
  have hc : o.can_be_cancelled = true := by
    rcases hst with h | h <;> simp [Order.can_be_cancelled, h]
  have heq := cancel_order_eq db oid actor reason now o ho hc
  have hrel : findOrder (releaseItems db (orderItemsOf db o.id)) o.id = some o :=
    (findOrder_releaseItems _ db o.id).trans ho'
  have hfind2 : findOrder (cancel_order db oid actor reason now).2 o.id =
      some { o with status := OrderStatus.CANCELLED } := by
    rw [heq]
    exact findOrder_set (releaseItems db (orderItemsOf db o.id)) o.id o
      { o with status := OrderStatus.CANCELLED } hrel rfl
  have hsecond : ∀ S : DB,
      findOrder S o.id = some { o with status := OrderStatus.CANCELLED } →
      cancel_order S o.id actor reason now2 =
        (ApiRes.validationError "This order cannot be cancelled.", S) := by
    intro S hS
    simp [cancel_order, hS, Order.can_be_cancelled]
  refine ⟨by rw [heq], hfind2, ?_, ?_, ?_⟩
  · intro it hmem p hp
    have hstock := releaseItems_stock (orderItemsOf db o.id) db hnd it hmem p hp
    rw [heq]
    exact hstock
  · rw [hsecond _ hfind2]
  · rw [hsecond _ hfind2]

/-- A confirmed order with one item of two units of a product with three
units in stock. -/
def c9Product : Product :=
  { producer_id := 11, price := 250, quantity_available := 3, is_active := true }

def c9Order : Order :=
  { id := 6, order_number := [], consumer := 9, status := OrderStatus.CONFIRMED,
    total_amount := 500, confirmed_at := some 8, shipped_at := none, delivered_at := none }

def c9Item : OrderItem :=
  { order_id := 6, product_id := 10, producer_id := 11, quantity := 2,
    unit_price := 250, total_price := 500 }

def c9Db : DB :=
  { products := [(10, c9Product)], cart_items := [], orders := [c9Order],
    order_items := [c9Item], status_history := [], payments := [], refunds := [],
    webhook_events := [], confirm_calls := 0, gateway_refund_calls := [] }

/-- Witness for C9 at the concrete confirmed order. -/
theorem c9_cancel_witness :
    findOrder c9Db 6 = some c9Order ∧
    (c9Order.status = OrderStatus.PENDING ∨ c9Order.status = OrderStatus.CONFIRMED) ∧
    ((orderItemsOf c9Db c9Order.id).map (fun it => it.product_id)).Nodup ∧
    ((cancel_order c9Db 6 9 "cx" 70).1 = ApiRes.ok ∧
      findOrder (cancel_order c9Db 6 9 "cx" 70).2 c9Order.id =
        some { c9Order with status := OrderStatus.CANCELLED } ∧
      (∀ it ∈ orderItemsOf c9Db c9Order.id, ∀ p : Product,
        findProduct c9Db it.product_id = some p →
        findProduct (cancel_order c9Db 6 9 "cx" 70).2 it.product_id =
          some (p.increase_stock it.quantity)) ∧
      (cancel_order (cancel_order c9Db 6 9 "cx" 70).2 c9Order.id 9 "cx" 71).1 =
        ApiRes.validationError "This order cannot be cancelled." ∧
      (cancel_order (cancel_order c9Db 6 9 "cx" 70).2 c9Order.id 9 "cx" 71).2 =
        (cancel_order c9Db 6 9 "cx" 70).2) :=
  ⟨by decide, by decide, by decide,
    c9_cancel_restores_stock_once c9Db 6 9 "cx" 70 71 c9Order
      (by decide) (by decide) (by decide)⟩

/-! ## The checkout loop: frames, item creation and stock effect -/

/-- The checkout loop touches only the products and order_items tables. -/
theorem checkoutLoop_eta (l : List CartLine) : ∀ db : DB, ∀ oid : Nat,
    checkoutLoop db oid l =
      { db with
          products := (checkoutLoop db oid l).products,
          order_items := (checkoutLoop db oid l).order_items } := by
  induction l with
  | nil => intro db oid; rfl
  | cons lne rest ih =>
    intro db oid
    simp only [checkoutLoop]
    cases h : findProduct db lne.product_id with
    | none => exact (ih db oid).trans rfl
    | some p => exact (ih _ oid).trans rfl

theorem checkoutLoop_orders (l : List CartLine) (db : DB) (oid : Nat) :
    (checkoutLoop db oid l).orders = db.orders := by
  rw [checkoutLoop_eta l db oid]

theorem checkoutLoop_status_history (l : List CartLine) (db : DB) (oid : Nat) :
    (checkoutLoop db oid l).status_history = db.status_history := by
  rw [checkoutLoop_eta l db oid]

/-- reduce_stock never changes the denormalised producer. -/
theorem reduce_stock_producer (p : Product) (q : Int) :
    (p.reduce_stock q).1.producer_id = p.producer_id := by
  unfold Product.reduce_stock
  split <;> rfl

theorem checkoutLoop_findProduct_other (l : List CartLine) : ∀ db : DB, ∀ oid pid : Nat,
    pid ∉ l.map (fun lne => lne.product_id) →
    findProduct (checkoutLoop db oid l) pid = findProduct db pid := by
  induction l with
  | nil => intro db oid pid _; rfl
  | cons lne rest ih =>
    intro db oid pid h
    simp only [List.map_cons, List.mem_cons, not_or] at h
    obtain ⟨h1, h2⟩ := h
    simp only [checkoutLoop]
    cases hp : findProduct db lne.product_id with
    | none => exact ih db oid pid h2
    | some p =>
      rw [ih _ oid pid h2]
      exact findProduct_setProduct_other _ pid lne.product_id _ h1

/-- After the loop, each cart line with a cart-unique product has seen
its product go through reduce_stock with exactly the line quantity. -/
theorem checkoutLoop_stock (l : List CartLine) : ∀ db : DB, ∀ oid : Nat,
    (l.map (fun lne => lne.product_id)).Nodup →
    ∀ lne ∈ l, ∀ p : Product, findProduct db lne.product_id = some p →
    findProduct (checkoutLoop db oid l) lne.product_id =
      some (p.reduce_stock lne.quantity).1 := by
  induction l with
  | nil => intro db oid _ lne hmem; exact absurd hmem (List.not_mem_nil lne)
  | cons lne0 rest ih =>
    intro db oid hnd lne hmem p hp
    simp only [List.map_cons, List.nodup_cons] at hnd
    obtain ⟨h1, h2⟩ := hnd
    rcases List.mem_cons.mp hmem with heq | hmem'
    · subst heq
      simp only [checkoutLoop, hp]
      rw [checkoutLoop_findProduct_other rest _ oid lne.product_id h1]
      exact findProduct_setProduct_self _ lne.product_id p _ hp
    · have hin : lne.product_id ∈ rest.map (fun x => x.product_id) :=
        List.mem_map_of_mem _ hmem'
      simp only [checkoutLoop]
      cases hp0 : findProduct db lne0.product_id with
      | none => exact ih db oid h2 lne hmem' p hp
      | some p0 =>
        have hne : lne.product_id ≠ lne0.product_id := by
          intro hc
          rw [hc] at hin
          exact h1 hin
        apply ih _ oid h2 lne hmem' p
        rw [findProduct_setProduct_other _ lne.product_id lne0.product_id _ hne]
        exact hp

/-- The OrderItem rows appended by the checkout loop: one per cart line,
in order, with unit price copied from the line and producer denormalised
from the product. -/
theorem checkoutLoop_items (l : List CartLine) : ∀ db : DB, ∀ oid : Nat,
    (∀ lne ∈ l, ∃ p : Product, findProduct db lne.product_id = some p) →
    ∃ newItems : List OrderItem,
      (checkoutLoop db oid l).order_items = db.order_items ++ newItems ∧
      List.Forall₂ (fun (lne : CartLine) (it : OrderItem) =>
        it.order_id = oid ∧ it.product_id = lne.product_id ∧
        it.quantity = lne.quantity ∧ it.unit_price = lne.price_at_time ∧
        it.total_price = lne.quantity * lne.price_at_time ∧
        ∀ q : Product, findProduct db lne.product_id = some q →
          it.producer_id = q.producer_id) l newItems := by
  induction l with
  | nil =>
    intro db oid _
    exact ⟨[], by simp [checkoutLoop], List.Forall₂.nil⟩
  | cons lne0 rest ih =>
    intro db oid hex
    obtain ⟨p0, hp0⟩ := hex lne0 (List.mem_cons_self lne0 rest)
    simp only [checkoutLoop, hp0]
    set it0 : OrderItem :=
      { order_id := oid, product_id := lne0.product_id, producer_id := p0.producer_id,
        quantity := lne0.quantity, unit_price := lne0.price_at_time,
        total_price := lne0.quantity * lne0.price_at_time } with hit0
    set db1 : DB := setProduct { db with order_items := db.order_items ++ [it0] }
      lne0.product_id (p0.reduce_stock lne0.quantity).1 with hdb1
    have hex1 : ∀ lne ∈ rest, ∃ p : Product, findProduct db1 lne.product_id = some p := by
      intro lne hm
      obtain ⟨q, hq⟩ := hex lne (List.mem_cons_of_mem lne0 hm)
      by_cases hc : lne.product_id = lne0.product_id
      · refine ⟨(p0.reduce_stock lne0.quantity).1, ?_⟩
        rw [hdb1, hc]
        exact findProduct_setProduct_self _ lne0.product_id p0 _ hp0
      · refine ⟨q, ?_⟩
        rw [hdb1, findProduct_setProduct_other _ lne.product_id lne0.product_id _ hc]
        exact hq
    obtain ⟨items', happ', hfa'⟩ := ih db1 oid hex1
    refine ⟨it0 :: items', ?_, ?_⟩
    · rw [happ']
      have : db1.order_items = db.order_items ++ [it0] := rfl
      rw [this, List.append_assoc]
      rfl
    · refine List.Forall₂.cons ⟨rfl, rfl, rfl, rfl, rfl, ?_⟩ ?_
      · intro q hq
        rw [hp0] at hq
        cases hq
        rfl
      · refine hfa'.imp ?_
        intro lne it hR
        obtain ⟨r1, r2, r3, r4, r5, r6⟩ := hR
        refine ⟨r1, r2, r3, r4, r5, ?_⟩
        intro q hq
        by_cases hc : lne.product_id = lne0.product_id
        · have hq0 : q = p0 := by
            rw [hc, hp0] at hq
            cases hq
            rfl
          have hfb : findProduct db1 lne.product_id =
              some (p0.reduce_stock lne0.quantity).1 := by
            rw [hdb1, hc]
            exact findProduct_setProduct_self _ lne0.product_id p0 _ hp0
          have := r6 _ hfb
          rw [this, reduce_stock_producer, hq0]
        · apply r6
          rw [hdb1, findProduct_setProduct_other _ lne.product_id lne0.product_id _ hc]
          exact hq

/-! ## C4: checkout as one atomic unit -/

/-- C4: with a non-empty cart of available lines over distinct products,
checkout succeeds and, in one atomic step: appends exactly one PENDING
order totalling the sum of quantity times price_at_time over the cart,
appends one OrderItem per cart line copying price_at_time as unit_price
and denormalising the producer from the product, decrements every cart
product by exactly the line quantity, clears the cart, and appends one
initial history row (blank old status, PENDING new status).  A failed
checkout (any database) changes nothing, so cart lines are destroyed
iff the order was created. -/
theorem c4_checkout_atomic (db : DB) (year now oid uid : Nat)
    (hne : db.cart_items ≠ [])
    (hav : ∀ l ∈ db.cart_items, ∃ p : Product, findProduct db l.product_id = some p ∧
      p.is_active = true ∧ l.quantity ≤ p.quantity_available)
    (hnd : (db.cart_items.map (fun l => l.product_id)).Nodup) :
    (create_order_from_cart db year now oid uid).1 = CheckoutRes.created oid ∧
    (create_order_from_cart db year now oid uid).2.orders =
      db.orders ++
        [{ id := oid,
           order_number := nextOrderNumber year (db.orders.map (fun o => o.order_number)),
           consumer := uid, status := OrderStatus.PENDING,
           total_amount := cartTotalAmount db.cart_items, confirmed_at := none,
           shipped_at := none, delivered_at := none }] ∧
    (∃ newItems : List OrderItem,
      (create_order_from_cart db year now oid uid).2.order_items =
        db.order_items ++ newItems ∧
      List.Forall₂ (fun (lne : CartLine) (it : OrderItem) =>
        it.order_id = oid ∧ it.product_id = lne.product_id ∧
        it.quantity = lne.quantity ∧ it.unit_price = lne.price_at_time ∧
        it.total_price = lne.quantity * lne.price_at_time ∧
        ∀ q : Product, findProduct db lne.product_id = some q →
          it.producer_id = q.producer_id) db.cart_items newItems) ∧
    (∀ l ∈ db.cart_items, ∀ p : Product, findProduct db l.product_id = some p →
      findProduct (create_order_from_cart db year now oid uid).2 l.product_id =
        some { p with quantity_available := p.quantity_available - l.quantity }) ∧
    (create_order_from_cart db year now oid uid).2.cart_items = [] ∧
    (create_order_from_cart db year now oid uid).2.status_history =
      db.status_history ++
        [{ order_id := oid, old_status := none, new_status := OrderStatus.PENDING,
           changed_by := uid, reason := "Order created", changed_at := now }] ∧
    (∀ db0 : DB, ∀ msg : String, ∀ db2 : DB,
      create_order_from_cart db0 year now oid uid = (CheckoutRes.error msg, db2) →
      db2 = db0) := by
  have h0 : db.cart_items.isEmpty = false := by
    cases hc : db.cart_items with
    | nil => exact absurd hc hne
    | cons a l => rfl
  have h1 : db.cart_items.find? (fun l => !lineIsAvailable db l) = none := by
    apply List.find?_eq_none.mpr
    intro x hx
    obtain ⟨p, hp, hact, hq⟩ := hav x hx
    simp [lineIsAvailable, hp, hact, ge_iff_le]
    omega
  have hval : checkoutValidate db = none := by
    simp [checkoutValidate, h0, h1]
  have hex1 : ∀ lne ∈ db.cart_items, ∃ p : Product,
      findProduct { db with orders := db.orders ++
        [{ id := oid,
           order_number := nextOrderNumber year (db.orders.map (fun o => o.order_number)),
           consumer := uid, status := OrderStatus.PENDING,
           total_amount := cartTotalAmount db.cart_items, confirmed_at := none,
           shipped_at := none, delivered_at := none }] } lne.product_id = some p := by
    intro lne hm
    obtain ⟨p, hp, -, -⟩ := hav lne hm
    exact ⟨p, hp⟩
  obtain ⟨items, happ, hfa⟩ := checkoutLoop_items db.cart_items _ oid hex1
  refine ⟨?_, ?_, ⟨items, ?_, ?_⟩, ?_, ?_, ?_, ?_⟩
  · simp only [create_order_from_cart, hval]
  · simp only [create_order_from_cart, hval]
    rw [checkoutLoop_orders]
  · simp only [create_order_from_cart, hval]
    rw [happ]
  · exact hfa
  · intro l hm p hp
    obtain ⟨p', hp', hact', hq'⟩ := hav l hm
    have hpp : p' = p := by
      rw [hp'] at hp
      cases hp
      rfl
    subst hpp
    have hp1 : findProduct { db with orders := db.orders ++
        [{ id := oid,
           order_number := nextOrderNumber year (db.orders.map (fun o => o.order_number)),
           consumer := uid, status := OrderStatus.PENDING,
           total_amount := cartTotalAmount db.cart_items, confirmed_at := none,
           shipped_at := none, delivered_at := none }] } l.product_id = some p' := hp
    have hstock := checkoutLoop_stock db.cart_items _ oid hnd l hm p' hp1
    have hred : (p'.reduce_stock l.quantity).1 =
        { p' with quantity_available := p'.quantity_available - l.quantity } := by
      unfold Product.reduce_stock
      rw [if_pos (by omega)]
    simp only [create_order_from_cart, hval]
    rw [hred] at hstock
    exact hstock
  · simp only [create_order_from_cart, hval]
  · simp only [create_order_from_cart, hval]
    rw [checkoutLoop_status_history]
  · intro db0 msg db2 h
    cases hv : checkoutValidate db0 with
    | none =>
      simp only [create_order_from_cart, hv] at h
      exact absurd h (by simp)
    | some m =>
      simp only [create_order_from_cart, hv] at h
      rw [Prod.mk.injEq] at h
      exact h.2.symm

/-- A cart of two units of an active product with five in stock. -/
def c4Product : Product :=
  { producer_id := 12, price := 300, quantity_available := 5, is_active := true }

def c4Line : CartLine := { product_id := 20, quantity := 2, price_at_time := 300 }

def c4Db : DB :=
  { products := [(20, c4Product)], cart_items := [c4Line], orders := [], order_items := [],
    status_history := [], payments := [], refunds := [], webhook_events := [],
    confirm_calls := 0, gateway_refund_calls := [] }

/-- Witness for C4 at the concrete one-line cart. -/
theorem c4_checkout_witness :
    c4Db.cart_items ≠ [] ∧
    (∀ l ∈ c4Db.cart_items, ∃ p : Product, findProduct c4Db l.product_id = some p ∧
      p.is_active = true ∧ l.quantity ≤ p.quantity_available) ∧
    (c4Db.cart_items.map (fun l => l.product_id)).Nodup ∧
    ((create_order_from_cart c4Db 2024 90 30 9).1 = CheckoutRes.created 30 ∧
      (create_order_from_cart c4Db 2024 90 30 9).2.orders =
        c4Db.orders ++
          [{ id := 30,
             order_number :=
               nextOrderNumber 2024 (c4Db.orders.map (fun o => o.order_number)),
             consumer := 9, status := OrderStatus.PENDING,
             total_amount := cartTotalAmount c4Db.cart_items, confirmed_at := none,
             shipped_at := none, delivered_at := none }] ∧
      (∃ newItems : List OrderItem,
        (create_order_from_cart c4Db 2024 90 30 9).2.order_items =
          c4Db.order_items ++ newItems ∧
        List.Forall₂ (fun (lne : CartLine) (it : OrderItem) =>
          it.order_id = 30 ∧ it.product_id = lne.product_id ∧
          it.quantity = lne.quantity ∧ it.unit_price = lne.price_at_time ∧
          it.total_price = lne.quantity * lne.price_at_time ∧
          ∀ q : Product, findProduct c4Db lne.product_id = some q →
            it.producer_id = q.producer_id) c4Db.cart_items newItems) ∧
      (∀ l ∈ c4Db.cart_items, ∀ p : Product, findProduct c4Db l.product_id = some p →
        findProduct (create_order_from_cart c4Db 2024 90 30 9).2 l.product_id =
          some { p with quantity_available := p.quantity_available - l.quantity }) ∧
      (create_order_from_cart c4Db 2024 90 30 9).2.cart_items = [] ∧
      (create_order_from_cart c4Db 2024 90 30 9).2.status_history =
        c4Db.status_history ++
          [{ order_id := 30, old_status := none, new_status := OrderStatus.PENDING,
             changed_by := 9, reason := "Order created", changed_at := 90 }] ∧
      (∀ db0 : DB, ∀ msg : String, ∀ db2 : DB,
        create_order_from_cart db0 2024 90 30 9 = (CheckoutRes.error msg, db2) →
        db2 = db0)) :=
  ⟨by decide,
   by
     intro l hl
     have hl' : l = c4Line := by
       have : l ∈ [c4Line] := hl
       simpa using this
     subst hl'
     exact ⟨c4Product, by decide⟩,
   by decide,
   c4_checkout_atomic c4Db 2024 90 30 9 (by decide)
     (by
       intro l hl
       have hl' : l = c4Line := by
         have : l ∈ [c4Line] := hl
         simpa using this
       subst hl'
       exact ⟨c4Product, by decide⟩)
     (by decide)⟩

/-! ## C10: order-number generation

The generator is characterised symbolically: after k creations in 2024
(k at most 999) the store holds exactly GC2024 followed by the
three-digit numbers k down to 1; the 1000th creation yields GC20241000;
the 1001st creation computes GC20241000 again, because the
lexicographically largest stored number is still GC2024999. -/

/-- The three zero-padded decimal digits of k, for k below 1000. -/
def threeDig (k : Nat) : List Char :=
  [Nat.digitChar (k / 100), Nat.digitChar (k / 10 % 10), Nat.digitChar (k % 10)]

/-- The order number of the i-th order of 2024. -/
def fmt (i : Nat) : List Char := gcPfx 2024 ++ pad3 i

/-- The expected store after k creations, newest first. -/
def ordList : Nat → List (List Char)
  | 0 => []
  | k + 1 => fmt (k + 1) :: ordList k

/-- The sequence parts k down to 1. -/
def countdown : Nat → List Nat
  | 0 => []
  | k + 1 => (k + 1) :: countdown k

/-- The sequence part of a 2024 order number. -/
def seqOf (s : List Char) : Nat := charsToNat (s.drop 6)

set_option maxRecDepth 8000 in
theorem pad3_all_below_1000 :
    ((List.range 1000).all fun k => pad3 k == threeDig k) = true := by
  rfl

theorem pad3_eq_threeDig (k : Nat) (hk : k < 1000) : pad3 k = threeDig k := by
  have h := List.all_eq_true.mp pad3_all_below_1000 k (List.mem_range.mpr hk)
  exact eq_of_beq h

theorem digitChar_toNat (d : Nat) (hd : d < 10) : (Nat.digitChar d).toNat = 48 + d := by
  interval_cases d <;> rfl

theorem charsToNat_threeDig (k : Nat) (hk : k < 1000) : charsToNat (threeDig k) = k := by
  have h1 := digitChar_toNat (k / 100) (by omega)
  have h2 := digitChar_toNat (k / 10 % 10) (by omega)
  have h3 := digitChar_toNat (k % 10) (by omega)
  simp only [charsToNat, threeDig, List.foldl, h1, h2, h3]
  omega

theorem chLt_append (xs : List Char) : ∀ a b : List Char,
    chLt (xs ++ a) (xs ++ b) = chLt a b := by
  induction xs with
  | nil => intro a b; rfl
  | cons x xs ih =>
    intro a b
    simp only [List.cons_append, chLt]
    rw [if_neg, if_neg]
    · exact ih a b
    · simp [Nat.blt_eq]
    · simp [Nat.blt_eq]

theorem chLt_threeDig (i j : Nat) (hij : i < j) (hj : j < 1000) :
    chLt (threeDig i) (threeDig j) = true := by
  have ha1 := digitChar_toNat (i / 100) (by omega)
  have ha2 := digitChar_toNat (j / 100) (by omega)
  have hb1 := digitChar_toNat (i / 10 % 10) (by omega)
  have hb2 := digitChar_toNat (j / 10 % 10) (by omega)
  have hc1 := digitChar_toNat (i % 10) (by omega)
  have hc2 := digitChar_toNat (j % 10) (by omega)
  simp only [threeDig, chLt, ha1, ha2, hb1, hb2, hc1, hc2, Nat.blt_eq]
  have hd : i / 100 < j / 100 ∨ (i / 100 = j / 100 ∧
      (i / 10 % 10 < j / 10 % 10 ∨ (i / 10 % 10 = j / 10 % 10 ∧ i % 10 < j % 10))) := by
    omega
  rcases hd with h | ⟨h1, h | ⟨h2, h3⟩⟩
  · rw [if_pos (by omega)]
  · rw [if_neg (by omega), if_neg (by omega), if_pos (by omega)]
  · rw [if_neg (by omega), if_neg (by omega), if_neg (by omega), if_neg (by omega),
      if_pos (by omega)]

theorem chLt_asymm : ∀ a b : List Char, chLt a b = true → chLt b a = false := by
  intro a
  induction a with
  | nil =>
    intro b h
    cases b with
    | nil => exact absurd h (by simp [chLt])
    | cons y ys => rfl
  | cons x xs ih =>
    intro b h
    cases b with
    | nil => exact absurd h (by simp [chLt])
    | cons y ys =>
      simp only [chLt, Nat.blt_eq] at h ⊢
      by_cases h1 : x.toNat < y.toNat
      · rw [if_neg (by omega), if_pos h1]
      · by_cases h2 : y.toNat < x.toNat
        · rw [if_neg h1, if_pos h2] at h
          exact absurd h (by simp)
        · rw [if_neg h1, if_neg h2] at h
          rw [if_neg h2, if_neg h1]
          exact ih ys h

theorem listStartsWith_append (xs : List Char) : ∀ ys : List Char,
    listStartsWith xs (xs ++ ys) = true := by
  induction xs with
  | nil => intro ys; rfl
  | cons x xs ih =>
    intro ys
    simp only [List.cons_append, listStartsWith, beq_self_eq_true, Bool.true_and]
    exact ih ys

theorem ordList_mem : ∀ k : Nat, ∀ x ∈ ordList k, ∃ i, 1 ≤ i ∧ i ≤ k ∧ x = fmt i := by
  intro k
  induction k with
  | zero => intro x hx; exact absurd hx (List.not_mem_nil x)
  | succ k ih =>
    intro x hx
    rcases List.mem_cons.mp hx with rfl | hx'
    · exact ⟨k + 1, by omega, by omega, rfl⟩
    · obtain ⟨i, h1, h2, h3⟩ := ih x hx'
      exact ⟨i, h1, by omega, h3⟩

theorem ordList_startsWith (k : Nat) : ∀ s ∈ ordList k,
    listStartsWith (gcPfx 2024) s = true := by
  intro s hs
  obtain ⟨i, -, -, rfl⟩ := ordList_mem k s hs
  exact listStartsWith_append _ _

theorem ordList_filter (k : Nat) :
    (ordList k).filter (fun s => listStartsWith (gcPfx 2024) s) = ordList k := by
  induction k with
  | zero => rfl
  | succ k ih =>
    simp only [ordList, List.filter_cons]
    rw [show listStartsWith (gcPfx 2024) (fmt (k + 1)) = true from
      listStartsWith_append (gcPfx 2024) (pad3 (k + 1))]
    rw [if_pos rfl, ih]

theorem foldl_max_below : ∀ (l : List (List Char)) (m : List Char),
    (∀ x ∈ l, chLt x m = true) →
    l.foldl (fun m x => if chLt m x then x else m) m = m := by
  intro l
  induction l with
  | nil => intro m _; rfl
  | cons x xs ih =>
    intro m hall
    simp only [List.foldl]
    rw [if_neg]
    · exact ih m (fun y hy => hall y (List.mem_cons_of_mem x hy))
    · rw [chLt_asymm x m (hall x (List.mem_cons_self x xs))]
      exact Bool.false_ne_true

theorem chLt_fmt (i j : Nat) (hij : i < j) (hj : j < 1000) :
    chLt (fmt i) (fmt j) = true := by
  simp only [fmt, chLt_append]
  rw [pad3_eq_threeDig i (by omega), pad3_eq_threeDig j hj]
  exact chLt_threeDig i j hij hj

theorem maxChars_ordList (k : Nat) (hk1 : 1 ≤ k) (hk : k < 1000) :
    maxChars (ordList k) = some (fmt k) := by
  cases k with
  | zero => omega
  | succ k' =>
    simp only [ordList, maxChars]
    congr 1
    apply foldl_max_below
    intro x hx
    obtain ⟨i, hi1, hi2, rfl⟩ := ordList_mem k' x hx
    exact chLt_fmt i (k' + 1) (by omega) hk

theorem takeLast3_fmt (k : Nat) (hk : k < 1000) : takeLast3 (fmt k) = threeDig k := by
  simp only [fmt, pad3_eq_threeDig k hk]
  rfl

theorem ordList_succ (k : Nat) : ordList (k + 1) = fmt (k + 1) :: ordList k := rfl

theorem countdown_succ (k : Nat) : countdown (k + 1) = (k + 1) :: countdown k := rfl

theorem createOrders_succ (year n : Nat) :
    createOrders year (n + 1) =
      nextOrderNumber year (createOrders year n) :: createOrders year n := rfl

theorem createOrders_eq : ∀ k : Nat, k ≤ 999 → createOrders 2024 k = ordList k := by
  intro k
  induction k with
  | zero => intro _; rfl
  | succ k ih =>
    intro hk
    have ihk := ih (by omega)
    simp only [createOrders, ordList, ihk]
    have hnext : nextOrderNumber 2024 (ordList k) = fmt (k + 1) := by
      cases k with
      | zero => rfl
      | succ k' =>
        simp only [nextOrderNumber, ordList_filter (k' + 1),
          maxChars_ordList (k' + 1) (by omega) (by omega)]
        rw [takeLast3_fmt (k' + 1) (by omega), charsToNat_threeDig (k' + 1) (by omega)]
        rfl
    rw [hnext]

theorem createOrders_1000 : createOrders 2024 1000 = fmt 1000 :: ordList 999 := by
  have hnext : nextOrderNumber 2024 (ordList 999) = fmt 1000 := by
    simp only [nextOrderNumber, ordList_filter 999, maxChars_ordList 999 (by omega) (by omega)]
    rw [takeLast3_fmt 999 (by omega), charsToNat_threeDig 999 (by omega)]
    rfl
  have h1 : createOrders 2024 1000 =
      nextOrderNumber 2024 (createOrders 2024 999) :: createOrders 2024 999 :=
    createOrders_succ 2024 999
  rw [h1, createOrders_eq 999 (by omega), hnext]

theorem maxChars_with_big (k : Nat) (hk : k + 1 ≤ 999) (big : List Char)
    (hbig : chLt big (fmt (k + 1)) = true) :
    maxChars (big :: ordList (k + 1)) = some (fmt (k + 1)) := by
  have hbelow : ∀ x ∈ ordList k, chLt x (fmt (k + 1)) = true := by
    intro x hx
    obtain ⟨i, hi1, hi2, rfl⟩ := ordList_mem k x hx
    exact chLt_fmt i (k + 1) (by omega) (by omega)
  calc maxChars (big :: ordList (k + 1))
      = some ((ordList k).foldl (fun m x => if chLt m x then x else m)
          (if chLt big (fmt (k + 1)) then fmt (k + 1) else big)) := rfl
    _ = some ((ordList k).foldl (fun m x => if chLt m x then x else m) (fmt (k + 1))) := by
        rw [if_pos hbig]
    _ = some (fmt (k + 1)) := by
        rw [foldl_max_below (ordList k) (fmt (k + 1)) hbelow]

theorem nextOrderNumber_after_1000 :
    nextOrderNumber 2024 (fmt 1000 :: ordList 999) = fmt 1000 := by
  have hfil : (fmt 1000 :: ordList 999).filter (fun s => listStartsWith (gcPfx 2024) s) =
      fmt 1000 :: ordList 999 := by
    simp only [List.filter_cons]
    rw [show listStartsWith (gcPfx 2024) (fmt 1000) = true from
      listStartsWith_append (gcPfx 2024) (pad3 1000)]
    rw [if_pos rfl, ordList_filter 999]
  have hlt : chLt (fmt 1000) (fmt 999) = true := by
    simp only [fmt, chLt_append]
    rfl
  have hmax : maxChars (fmt 1000 :: ordList 999) = some (fmt 999) :=
    maxChars_with_big 998 (by omega) (fmt 1000) hlt
  simp only [nextOrderNumber, hfil, hmax]
  rw [takeLast3_fmt 999 (by omega), charsToNat_threeDig 999 (by omega)]
  rfl

/-- Counterexample to C10: the generator is NOT unique for arbitrarily
long creation sequences.  After 1000 creations in 2024 the store is
GC20241000, GC2024999, ..., GC2024001; the lexicographically largest
stored number is still GC2024999 (the string GC20241000 sorts below it),
so the 1001st creation parses 999, increments, and produces GC20241000 a
second time: the store after 1001 creations contains a duplicate (on the
real database the unique constraint would instead make the save
fail). -/
theorem c10_order_number_reused_at_1001 :
    createOrders 2024 1001 = fmt 1000 :: createOrders 2024 1000 ∧
    fmt 1000 = ['G', 'C', '2', '0', '2', '4', '1', '0', '0', '0'] ∧
    fmt 1000 ∈ createOrders 2024 1000 ∧
    ¬ (createOrders 2024 1001).Nodup := by
  have hstep : createOrders 2024 1001 =
      nextOrderNumber 2024 (createOrders 2024 1000) :: createOrders 2024 1000 :=
    createOrders_succ 2024 1000
  have hnext : nextOrderNumber 2024 (createOrders 2024 1000) = fmt 1000 := by
    rw [createOrders_1000]
    exact nextOrderNumber_after_1000
  have hmem : fmt 1000 ∈ createOrders 2024 1000 := by
    rw [createOrders_1000]
    exact List.mem_cons_self _ _
  refine ⟨by rw [hstep, hnext], by rfl, hmem, ?_⟩
  rw [hstep, hnext]
  intro hnd
  exact (List.nodup_cons.mp hnd).1 hmem

theorem countdown_mem : ∀ k : Nat, ∀ x ∈ countdown k, 1 ≤ x ∧ x ≤ k := by
  intro k
  induction k with
  | zero => intro x hx; exact absurd hx (List.not_mem_nil x)
  | succ k ih =>
    intro x hx
    rcases List.mem_cons.mp hx with rfl | hx'
    · omega
    · have := ih x hx'
      omega

theorem countdown_nodup : ∀ k : Nat, (countdown k).Nodup := by
  intro k
  induction k with
  | zero => exact List.nodup_nil
  | succ k ih =>
    refine List.nodup_cons.mpr ⟨?_, ih⟩
    intro hmem
    have := countdown_mem k (k + 1) hmem
    omega

theorem countdown_chain : ∀ k : Nat, List.Chain' (fun a b => b < a) (countdown k) := by
  intro k
  induction k with
  | zero => simp [countdown]
  | succ k ih =>
    cases k with
    | zero => simp [countdown]
    | succ k' =>
      simp only [countdown] at ih ⊢
      rw [List.chain'_cons]
      exact ⟨by omega, ih⟩

theorem seqOf_fmt (k : Nat) (hk : k < 1000) : seqOf (fmt k) = k := by
  simp only [seqOf, fmt, pad3_eq_threeDig k hk]
  rw [show (gcPfx 2024 ++ threeDig k).drop 6 = threeDig k from rfl]
  exact charsToNat_threeDig k hk

theorem map_seqOf_ordList : ∀ k : Nat, k ≤ 999 →
    (ordList k).map seqOf = countdown k := by
  intro k
  induction k with
  | zero => intro _; rfl
  | succ k ih =>
    intro hk
    simp only [ordList, countdown, List.map_cons]
    rw [seqOf_fmt (k + 1) (by omega), ih (by omega)]

theorem map_seqOf_createOrders (n : Nat) (hn : n ≤ 1000) :
    (createOrders 2024 n).map seqOf = countdown n := by
  by_cases h : n ≤ 999
  · rw [createOrders_eq n h]
    exact map_seqOf_ordList n h
  · have h1000 : n = 1000 := by omega
    subst h1000
    rw [createOrders_1000]
    simp only [List.map_cons]
    rw [show seqOf (fmt 1000) = 1000 from rfl, map_seqOf_ordList 999 (by omega)]
    rfl

/-- C10 amended: for up to 1000 creations within the year, every stored
number has the GC2024 prefix, the numbers are pairwise distinct (never
reused) and their sequence parts strictly increase in creation order
(the stored list is newest first, so the mapped sequence list strictly
decreases).  Beyond 1000 the guarantee fails: the 1001st creation
recomputes GC20241000. -/
theorem c10_amended_unique_increasing (n : Nat) (hn : n ≤ 1000) :
    (createOrders 2024 n).Nodup ∧
    List.Chain' (fun a b => b < a) ((createOrders 2024 n).map seqOf) ∧
    ∀ s ∈ createOrders 2024 n, listStartsWith (gcPfx 2024) s = true := by
  have hmap := map_seqOf_createOrders n hn
  refine ⟨?_, ?_, ?_⟩
  · have hnd : ((createOrders 2024 n).map seqOf).Nodup := by
      rw [hmap]
      exact countdown_nodup n
    exact hnd.of_map
  · rw [hmap]
    exact countdown_chain n
  · intro s hs
    by_cases h : n ≤ 999
    · rw [createOrders_eq n h] at hs
      exact ordList_startsWith n s hs
    · have h1000 : n = 1000 := by omega
      subst h1000
      rw [createOrders_1000] at hs
      rcases List.mem_cons.mp hs with rfl | hs'
      · exact listStartsWith_append (gcPfx 2024) (pad3 1000)
      · exact ordList_startsWith 999 s hs'

/-- Witness for the amended C10 after three creations. -/
theorem c10_amended_witness :
    (3 : Nat) ≤ 1000 ∧
    ((createOrders 2024 3).Nodup ∧
      List.Chain' (fun a b => b < a) ((createOrders 2024 3).map seqOf) ∧
      ∀ s ∈ createOrders 2024 3, listStartsWith (gcPfx 2024) s = true) :=
  ⟨by decide, c10_amended_unique_increasing 3 (by decide)⟩

end GreenCart
